import Mathlib

/-!
Verification of the real-time telephony media bridge in
`backend/twilio_websocket_server.py` (seniorly-callback-service).

The development shallowly embeds:
* the G.711 mu-law codec used through `audioop.ulaw2lin` / `audioop.lin2ulaw`
  (CPython `Modules/audioop.c`, `st_ulaw2linear16` / `st_14linear2ulaw`);
* the fallback VAD gate `has_significant_audio` and
  `compute_zero_crossing_rate`;
* the WebRTC sliding-window wrapper `is_speech_webrtc` (the per-frame
  classifier `webrtcvad.Vad.is_speech` is an external collaborator, modelled
  as an oracle parameter);
* the per-call session loop of the `media_stream` WebSocket handler as a
  step function on an explicit session state.
-/

namespace Seniorly

/-! ## G.711 mu-law codec (CPython audioop semantics)

`audioop.ulaw2lin(data, 2)` maps each byte through `st_ulaw2linear16`;
`audioop.lin2ulaw(data, 2)` maps each 16-bit sample `s` through
`st_14linear2ulaw((s << 16) >> 18)`, i.e. `st_14linear2ulaw(floor(s / 4))`.
-/

/-- Decode one mu-law byte (0..255) to a 16-bit linear PCM sample.
Mirrors `st_ulaw2linear16` in CPython audioop.c: complement the byte,
extract quantization and segment bits, rescale, remove the bias 0x84. -/
def st_ulaw2linear16 (b : Nat) : Int :=
  let u : Nat := 255 - b
  let t : Nat := ((u &&& 0xF) <<< 3) + 0x84
  let t2 : Nat := t <<< ((u &&& 0x70) >>> 4)
  if u &&& 0x80 ≠ 0 then (0x84 : Int) - (t2 : Int) else (t2 : Int) - 0x84

/-- Segment search plus bit packing of `st_14linear2ulaw`, factored out on
the biased magnitude `q = clipped magnitude + 33`: find the first segment
whose upper end is at least `q` (the `search(pcm_val, seg_uend, 8)` loop)
and combine segment and quantization bits; out of range yields the maximum
code word 0x7F. -/
def ulawSegChain (q : Nat) : Nat :=
  if q ≤ 0x3F then (0 <<< 4) ||| ((q >>> 1) &&& 0xF)
  else if q ≤ 0x7F then (1 <<< 4) ||| ((q >>> 2) &&& 0xF)
  else if q ≤ 0xFF then (2 <<< 4) ||| ((q >>> 3) &&& 0xF)
  else if q ≤ 0x1FF then (3 <<< 4) ||| ((q >>> 4) &&& 0xF)
  else if q ≤ 0x3FF then (4 <<< 4) ||| ((q >>> 5) &&& 0xF)
  else if q ≤ 0x7FF then (5 <<< 4) ||| ((q >>> 6) &&& 0xF)
  else if q ≤ 0xFFF then (6 <<< 4) ||| ((q >>> 7) &&& 0xF)
  else if q ≤ 0x1FFF then (7 <<< 4) ||| ((q >>> 8) &&& 0xF)
  else 0x7F

/-- Encode a 14-bit-range value (the 16-bit sample already arithmetically
shifted right by 2) to one mu-law byte. Mirrors `st_14linear2ulaw` in
CPython audioop.c: take sign and magnitude, clip the magnitude at 8159,
add the scaled bias 33 (0x84 >> 2), find the logarithmic segment, pack
sign, segment and quantization bits, complement the code word. -/
def st_14linear2ulaw (p : Int) : Nat :=
  let mask : Nat := if p < 0 then 0x7F else 0xFF
  let m : Int := if p < 0 then -p else p
  let mc : Int := if m > 8159 then 8159 else m
  let q : Nat := (mc + 33).toNat
  ulawSegChain q ^^^ mask

/-- Encode one 16-bit linear PCM sample to a mu-law byte, as
`audioop.lin2ulaw` does per sample: `st_14linear2ulaw(GETSAMPLE32 >> 18)`,
where the arithmetic right shift by 18 of the sample promoted by 16 bits is
floor division of the sample by 4. -/
def lin2ulaw_sample (s : Int) : Nat :=
  st_14linear2ulaw (Int.fdiv s 4)

/-- Model of `audioop.ulaw2lin(data, 2)`: decode mu-law bytes to samples. -/
def ulaw2lin (data : List Nat) : List Int :=
  data.map st_ulaw2linear16

/-- Model of `audioop.lin2ulaw(data, 2)`: encode samples to mu-law bytes. -/
def lin2ulaw (samples : List Int) : List Nat :=
  samples.map lin2ulaw_sample

/-! ### Round-trip error bound

The bound is established by an exhaustive magnitude-side check on the
14-bit domain, lifted to all 16-bit samples by sign symmetry and by the
floor-by-4 remainder. -/

/-- Magnitude-side encoder: clipped biased segment code for a nonnegative
14-bit magnitude, before the sign mask is applied. -/
def encodeMag (m : Nat) : Nat := ulawSegChain (min m 8159 + 33)

/-- Magnitude-side decoder for a code word without sign bit: the value
`t2 - BIAS` computed by `st_ulaw2linear16` on the magnitude bits. -/
def decodeMag (uval : Nat) : Nat :=
  ((((uval &&& 0xF) <<< 3) + 132) <<< ((uval &&& 0x70) >>> 4)) - 132

/-- Round-trip check for one 14-bit magnitude `m`: the decoded value is
within 644 of `4*m` and of both endpoints `4*m + 3` (positive samples with
maximal floor remainder) and `4*m - 3` (negative samples). -/
def magOk (m : Nat) : Bool :=
  let d := decodeMag (encodeMag m)
  let a := 4 * m
  ((if d ≥ a then d - a else a - d) ≤ 644) &&
  ((if d ≥ a + 3 then d - (a + 3) else (a + 3) - d) ≤ 644) &&
  ((if a ≥ d + 3 then a - (d + 3) else (d + 3) - a) ≤ 644)

/-- Balanced exhaustive checker: `checkTree f d lo` decides `f` on the
interval `[lo, lo + 2^d)` with recursion depth `d`. -/
def checkTree (f : Nat → Bool) : Nat → Nat → Bool
  | 0, lo => f lo
  | d+1, lo => checkTree f d lo && checkTree f d (lo + 2^d)

theorem checkTree_sound (f : Nat → Bool) :
    ∀ (d lo : Nat), checkTree f d lo = true →
      ∀ i, i < 2^d → f (lo + i) = true := by
  intro d
  induction d with
  | zero =>
    intro lo h i hi
    interval_cases i
    · simpa [checkTree] using h
  | succ d ih =>
    intro lo h i hi
    rw [checkTree, Bool.and_eq_true] at h
    by_cases hcase : i < 2^d
    · exact ih lo h.1 i hcase
    · have h2 := ih (lo + 2^d) h.2 (i - 2^d) (by simp [pow_succ] at hi; omega)
      have : lo + 2^d + (i - 2^d) = lo + i := by omega
      rwa [this] at h2

set_option maxRecDepth 4000 in
set_option maxHeartbeats 4000000 in
theorem magOk_all : checkTree magOk 13 0 = true := by decide

theorem magOk_of_lt (m : Nat) (hm : m < 8192) : magOk m = true := by
  have := checkTree_sound magOk 13 0 magOk_all m (by norm_num; omega)
  simpa using this

theorem st_14linear2ulaw_nonneg (p : Int) (hp : 0 ≤ p) :
    st_14linear2ulaw p = encodeMag p.toNat ^^^ 0xFF := by
  have hnl : ¬ p < 0 := not_lt.mpr hp
  simp only [st_14linear2ulaw, encodeMag, if_neg hnl]
  congr 1
  congr 1
  split
  · next h => have : min p.toNat 8159 = 8159 := by omega
              omega
  · next h => have : min p.toNat 8159 = p.toNat := by omega
              omega

theorem st_14linear2ulaw_neg (p : Int) (hp : p < 0) :
    st_14linear2ulaw p = encodeMag (-p).toNat ^^^ 0x7F := by
  simp only [st_14linear2ulaw, encodeMag, if_pos hp]
  congr 1
  congr 1
  split
  · next h => have : min (-p).toNat 8159 = 8159 := by omega
              omega
  · next h => have : min (-p).toNat 8159 = (-p).toNat := by omega
              omega

theorem decode_pos_code :
    ∀ u, u < 128 → st_ulaw2linear16 (u ^^^ 0xFF) = ((decodeMag u : Nat) : Int) := by
  decide

theorem decode_neg_code :
    ∀ u, u < 128 → st_ulaw2linear16 (u ^^^ 0x7F) = -((decodeMag u : Nat) : Int) := by
  decide

theorem ulawSegChain_lt (q : Nat) : ulawSegChain q < 128 := by
  have hpack : ∀ k x : Nat, k ≤ 7 → (k <<< 4) ||| (x &&& 0xF) < 128 := by
    intro k x hk
    have h1 : (k <<< 4) < 2^7 := by
      rw [Nat.shiftLeft_eq]
      have : k * 2^4 ≤ 7 * 2^4 := by
        exact Nat.mul_le_mul_right _ hk
      omega
    have h2 : (x &&& 0xF) < 2^7 := by
      have := Nat.and_le_right (n := x) (m := 0xF)
      omega
    exact Nat.or_lt_two_pow h1 h2
  unfold ulawSegChain
  split
  · exact hpack 0 _ (by norm_num)
  split
  · exact hpack 1 _ (by norm_num)
  split
  · exact hpack 2 _ (by norm_num)
  split
  · exact hpack 3 _ (by norm_num)
  split
  · exact hpack 4 _ (by norm_num)
  split
  · exact hpack 5 _ (by norm_num)
  split
  · exact hpack 6 _ (by norm_num)
  split
  · exact hpack 7 _ (by norm_num)
  · norm_num

theorem encodeMag_lt (m : Nat) : encodeMag m < 128 := ulawSegChain_lt _

theorem magOk_spec (m : Nat) (h : magOk m = true) :
    (((decodeMag (encodeMag m) : Nat) : Int) - 4 * m).natAbs ≤ 644 ∧
    (((decodeMag (encodeMag m) : Nat) : Int) - (4 * m + 3)).natAbs ≤ 644 ∧
    ((4 * (m : Int)) - ((decodeMag (encodeMag m) : Nat) + 3)).natAbs ≤ 644 := by
  simp only [magOk, Bool.and_eq_true, decide_eq_true_eq] at h
  obtain ⟨⟨h1, h2⟩, h3⟩ := h
  split at h1 <;> split at h2 <;> split at h3 <;>
    refine ⟨?_, ?_, ?_⟩ <;> omega

/-- Single-sample round-trip bound: encoding a 16-bit sample to mu-law and
decoding it back moves the sample by at most 644 (the largest mu-law
quantization step is 1024; the worst case 644 occurs at the clipped
negative full-scale sample -32768). -/
theorem sample_round_trip (s : Int) (h1 : -32768 ≤ s) (h2 : s ≤ 32767) :
    (st_ulaw2linear16 (lin2ulaw_sample s) - s).natAbs ≤ 644 := by
  have hsplit : 4 * Int.fdiv s 4 + Int.fmod s 4 = s := Int.fdiv_add_fmod s 4
  have hr0 : 0 ≤ Int.fmod s 4 := Int.fmod_nonneg' s (by norm_num)
  have hr3 : Int.fmod s 4 < 4 := Int.fmod_lt_of_pos s (by norm_num)
  set p := Int.fdiv s 4 with hpdef
  have hplo : -8192 ≤ p := by omega
  have hphi : p ≤ 8191 := by omega
  rw [lin2ulaw_sample, ← hpdef]
  rcases lt_trichotomy p 0 with hneg | hzero | hpos
  · rcases eq_or_lt_of_le hplo with htop | hgt
    · rw [← htop]
      have henc : st_14linear2ulaw (-8192) = 0 := by decide
      have hdec : st_ulaw2linear16 0 = -32124 := by decide
      rw [henc, hdec]
      omega
    · -- p in [-8191, -1]
      have hm : (-p).toNat < 8192 := by omega
      rw [st_14linear2ulaw_neg p hneg,
          decode_neg_code _ (encodeMag_lt (-p).toNat)]
      have hspec := magOk_spec _ (magOk_of_lt _ hm)
      have hcast : ((-p).toNat : Int) = -p := by omega
      rw [hcast] at hspec
      omega
  · rw [hzero]
    have henc : st_14linear2ulaw 0 = 255 := by decide
    have hdec : st_ulaw2linear16 255 = 0 := by decide
    rw [henc, hdec]
    omega
  · have hm : p.toNat < 8192 := by omega
    rw [st_14linear2ulaw_nonneg p (le_of_lt hpos),
        decode_pos_code _ (encodeMag_lt p.toNat)]
    have hspec := magOk_spec _ (magOk_of_lt _ hm)
    have hcast : (p.toNat : Int) = p := by omega
    rw [hcast] at hspec
    omega

set_option maxRecDepth 2000 in
/-- Decode-encode-decode is the identity on decoded values: re-encoding a
decoded mu-law byte yields a byte with exactly the same decoded sample
(the only non-identity byte is the negative-zero code 0x7F, which
re-encodes to the positive-zero code 0xFF; both decode to 0). -/
theorem byte_round_trip (b : Nat) :
    st_ulaw2linear16 (lin2ulaw_sample (st_ulaw2linear16 b)) = st_ulaw2linear16 b := by
  by_cases hb : b < 256
  · revert b
    decide
  · have h255 : st_ulaw2linear16 b = st_ulaw2linear16 255 := by
      have hz : 255 - b = 255 - 255 := by omega
      simp only [st_ulaw2linear16, hz]
    rw [h255]
    decide

/-- C2. Transcoder round-trip: for every valid 16-bit sample, encoding to
mu-law and decoding back moves the sample by at most 644 (well within a few
quantization steps; the largest mu-law step is 1024); the same bound holds
pointwise for every sample sequence through the list-level codec; and the
reverse composition encode-then-decode on wire bytes reproduces the decoded
signal exactly. -/
theorem transcoder_round_trip :
    (∀ s : Int, -32768 ≤ s → s ≤ 32767 →
      (st_ulaw2linear16 (lin2ulaw_sample s) - s).natAbs ≤ 644) ∧
    (∀ xs : List Int, (∀ s ∈ xs, -32768 ≤ s ∧ s ≤ 32767) →
      List.Forall₂ (fun d s => (d - s).natAbs ≤ 644) (ulaw2lin (lin2ulaw xs)) xs) ∧
    (∀ bs : List Nat, ulaw2lin (lin2ulaw (ulaw2lin bs)) = ulaw2lin bs) := by
  refine ⟨sample_round_trip, ?_, ?_⟩
  · intro xs hxs
    induction xs with
    | nil => simp [ulaw2lin, lin2ulaw]
    | cons a l ih =>
      have ha := hxs a (by simp)
      refine List.Forall₂.cons (sample_round_trip a ha.1 ha.2) ?_
      exact ih (fun s hs => hxs s (by simp [hs]))
  · intro bs
    induction bs with
    | nil => simp [ulaw2lin, lin2ulaw]
    | cons a l ih =>
      simp only [ulaw2lin, lin2ulaw, List.map_cons] at ih ⊢
      rw [byte_round_trip a]
      exact congrArg _ ih

/-- Closed instance of C2, applied at the negative full-scale sample. -/
theorem transcoder_round_trip_witness :
    (st_ulaw2linear16 (lin2ulaw_sample (-32768)) - (-32768)).natAbs ≤ 644 :=
  transcoder_round_trip.1 (-32768) (by norm_num) (by norm_num)

/-! ## Voice activity gate: fallback multi-signal detector

Embeds `compute_zero_crossing_rate` and `has_significant_audio` from
`twilio_websocket_server.py`. Samples are the int16 values obtained from
the PCM byte string; the code normalizes them by 32768 and works with
float RMS values, modelled here over the reals. The module-level
environment-tunable constants `VAD_ENABLE_ZCR`, `VAD_ZCR_MIN`,
`VAD_ZCR_MAX`, `VAD_MIN_VARIANCE` are gathered in `GateConfig`, with
`defaultGateConfig` holding the documented defaults. -/

structure GateConfig where
  enableZcr : Bool
  zcrMin : ℚ
  zcrMax : ℚ
  minVariance : ℚ
deriving DecidableEq

/-- Default values: VAD_ENABLE_ZCR=true, VAD_ZCR_MIN=0.02, VAD_ZCR_MAX=0.25,
VAD_MIN_VARIANCE=1e-5. -/
def defaultGateConfig : GateConfig :=
  { enableZcr := true, zcrMin := 1/50, zcrMax := 1/4, minVariance := 1/100000 }

/-- Count of adjacent sign changes, as `np.where(np.diff(np.sign(x)))[0].size`
on the normalized signal (normalization by 32768 preserves signs). -/
def countSignChanges : List Int → Nat
  | [] => 0
  | [_] => 0
  | a :: b :: rest =>
      (if Int.sign a ≠ Int.sign b then 1 else 0) + countSignChanges (b :: rest)

/-- Model of `compute_zero_crossing_rate`: zero for windows shorter than two
samples, else sign changes divided by window size. -/
def compute_zero_crossing_rate (xs : List Int) : ℚ :=
  if xs.length < 2 then 0
  else (countSignChanges xs : ℚ) / (xs.length : ℚ)

/-- Mean square of the normalized samples, `np.mean(normalized ** 2)`. -/
def meanSquare (xs : List Int) : ℚ :=
  ((xs.map (fun s => ((s : ℚ) / 32768)^2)).sum) / (xs.length : ℚ)

/-- RMS energy `np.sqrt(np.mean(normalized ** 2))` of int16 samples
normalized to the unit interval. -/
noncomputable def rmsEnergy (xs : List Int) : ℝ :=
  Real.sqrt ((meanSquare xs : ℚ) : ℝ)

/-- Sub-window slices of `has_significant_audio` layer 3: the chunk is cut
into slices of `seg_size = max(1, n // 8)` samples starting at multiples of
`seg_size` (the final slice may be shorter); empty slices are skipped as in
the source loop. -/
def segSlices (xs : List Int) : List (List Int) :=
  let segSize := max 1 (xs.length / 8)
  ((List.range ((xs.length + segSize - 1) / segSize)).map
    (fun i => (xs.drop (i * segSize)).take segSize)).filter (fun seg => !seg.isEmpty)

/-- Variance `np.var(seg_rms)` of the per-slice RMS values; zero when there
are no slices. -/
noncomputable def segVariance (xs : List Int) : ℝ :=
  let rs := (segSlices xs).map (fun seg => rmsEnergy seg)
  if rs.length = 0 then 0
  else ((rs.map (fun r => r^2)).sum / rs.length) - (rs.sum / rs.length)^2

/-- Model of `has_significant_audio(pcm_data, threshold)`: the sequential
early-return structure of the source, rendered as the conjunction of the
negations of each early-return condition — empty input fails; RMS below the
threshold fails (layer 1); when ZCR is enabled, a zero-crossing rate outside
the configured band fails (layer 2); sub-window RMS variance below the floor
fails (layer 3). -/
def has_significant_audio (cfg : GateConfig) (xs : List Int) (threshold : ℚ) : Prop :=
  xs.length ≠ 0 ∧
  ¬ (rmsEnergy xs < (threshold : ℝ)) ∧
  (cfg.enableZcr = true →
    ¬ ¬ (cfg.zcrMin ≤ compute_zero_crossing_rate xs ∧
         compute_zero_crossing_rate xs ≤ cfg.zcrMax)) ∧
  ¬ (segVariance xs < ((cfg.minVariance : ℚ) : ℝ))

/-- C6. Fallback gate decision: a chunk passes `has_significant_audio`
exactly when its RMS energy is at least the supplied threshold, its
zero-crossing rate lies within the configured band whenever the ZCR check
is enabled, and its sub-window RMS variance is at least the configured
floor. -/
theorem fallback_gate_iff (cfg : GateConfig) (xs : List Int) (threshold : ℚ)
    (hne : xs ≠ []) :
    has_significant_audio cfg xs threshold ↔
      ((threshold : ℝ) ≤ rmsEnergy xs ∧
       (cfg.enableZcr = true →
         (cfg.zcrMin ≤ compute_zero_crossing_rate xs ∧
          compute_zero_crossing_rate xs ≤ cfg.zcrMax)) ∧
       ((cfg.minVariance : ℚ) : ℝ) ≤ segVariance xs) := by
  unfold has_significant_audio
  constructor
  · rintro ⟨-, h1, h2, h3⟩
    exact ⟨not_lt.mp h1, fun hz => not_not.mp (h2 hz), not_lt.mp h3⟩
  · rintro ⟨h1, h2, h3⟩
    exact ⟨fun hlen => hne (List.length_eq_zero.mp hlen), not_lt.mpr h1,
      fun hz => not_not.mpr (h2 hz), not_lt.mpr h3⟩

/-- Closed instance of C6 at a one-sample chunk and the default config. -/
theorem fallback_gate_iff_witness :
    has_significant_audio defaultGateConfig [1] (1/100) ↔
      (((1/100 : ℚ) : ℝ) ≤ rmsEnergy [1] ∧
       (defaultGateConfig.enableZcr = true →
         (defaultGateConfig.zcrMin ≤ compute_zero_crossing_rate [1] ∧
          compute_zero_crossing_rate [1] ≤ defaultGateConfig.zcrMax)) ∧
       ((defaultGateConfig.minVariance : ℚ) : ℝ) ≤ segVariance [1]) :=
  fallback_gate_iff defaultGateConfig [1] (1/100) (by simp)

/-! ## Voice activity gate: WebRTC sliding-window wrapper

`is_speech_webrtc` cuts the PCM byte string into 20 ms frames (320 bytes,
i.e. 160 int16 samples), asks the external `webrtcvad.Vad` classifier for a
voiced flag per frame, and applies an onset rule. The per-frame classifier
is an external collaborator, modelled as an oracle parameter `classify`. -/

structure WebrtcConfig where
  onWindowFrames : Nat
  onMinVoiced : Nat
deriving DecidableEq

/-- Defaults: VAD_ON_WINDOW_FRAMES=10, VAD_ON_MIN_VOICED=8. -/
def defaultWebrtcConfig : WebrtcConfig := { onWindowFrames := 10, onMinVoiced := 8 }

/-- Model of `is_speech_webrtc(pcm_data)` at sample granularity (one 320-byte
frame is 160 samples): reject inputs shorter than one frame; classify each
complete 20 ms frame; for chunks shorter than the onset window require
`max(1, VAD_ON_MIN_VOICED // 2)` voiced frames in total, otherwise require
some sliding window of `VAD_ON_WINDOW_FRAMES` frames to contain at least
`VAD_ON_MIN_VOICED` voiced frames. -/
def is_speech_webrtc (wc : WebrtcConfig) (classify : List Int → Bool)
    (pcm : List Int) : Bool :=
  if pcm.length < 160 then false
  else
    let totalFrames := pcm.length / 160
    if totalFrames = 0 then false
    else
      let voiced := (List.range totalFrames).map
        (fun i => classify ((pcm.drop (160 * i)).take 160))
      if voiced.length < wc.onWindowFrames then
        decide (max 1 (wc.onMinVoiced / 2) ≤ voiced.count true)
      else
        (List.range (voiced.length - wc.onWindowFrames + 1)).any
          (fun s => decide (wc.onMinVoiced ≤
            ((voiced.drop s).take wc.onWindowFrames).count true))

/-- Model of the gate composition in `media_stream` (lines 737-745):
`gate_pass` starts false; when `VAD_USE_WEBRTC` is set it is the WebRTC
decision; when still false, the fallback `has_significant_audio` with the
adaptive ambient threshold decides. -/
def computeGatePass (cfg : GateConfig) (wc : WebrtcConfig) (useWebrtc : Bool)
    (classify : List Int → Bool) (pcm : List Int) (threshold : ℚ) : Prop :=
  if (if useWebrtc then is_speech_webrtc wc classify pcm else false) = true
  then True
  else has_significant_audio cfg pcm threshold

/-- C10. Gate composition is a disjunction with speech-side bias: with the
WebRTC detector enabled, a chunk passes the combined gate exactly when the
WebRTC sliding-window gate passes or the fallback multi-signal gate passes;
in particular every chunk the WebRTC detector accepts is accepted
regardless of the fallback signals, and a chunk is rejected only when both
gates reject it. -/
theorem gate_composition_disjunction (cfg : GateConfig) (wc : WebrtcConfig)
    (classify : List Int → Bool) (pcm : List Int) (threshold : ℚ) :
    (computeGatePass cfg wc true classify pcm threshold ↔
      (is_speech_webrtc wc classify pcm = true ∨
       has_significant_audio cfg pcm threshold)) ∧
    (is_speech_webrtc wc classify pcm = true →
      computeGatePass cfg wc true classify pcm threshold) ∧
    (is_speech_webrtc wc classify pcm = false →
      ¬ has_significant_audio cfg pcm threshold →
      ¬ computeGatePass cfg wc true classify pcm threshold) := by
  unfold computeGatePass
  rcases hw : is_speech_webrtc wc classify pcm with _ | _
  · simp [hw]
  · simp [hw]

/-! ## Call session state machine

The `media_stream` WebSocket handler is a single sequential loop with
per-call local variables; it is embedded as a step function on an explicit
state record driven by the inbound wire events. Timestamps are rationals;
each inbound event carries its arrival time (the loop reads the wall clock
a few instants apart within one iteration, which collapses to the single
event time in this atomic-step model).

Long-latency collaborators (RMS measurement of a chunk, the combined VAD
gate decision of lines 737-745, speech-to-text, the conversational agent,
text-to-speech, and the WebSocket transport) are oracle parameters bundled
in `Collaborators`; the claims below quantify over them. -/

structure SessionConfig where
  minThreshold : ℚ
  ambientMultiplier : ℚ
  sustainedChunks : Nat
  cooldownMs : Nat
  promptGraceMs : Nat
  chunkBytes : Nat
  silenceChunksToPrompt : Nat
  ambientLearningChunks : Nat
  maxNoResponseAttempts : Nat
deriving DecidableEq

/-- Documented defaults: VAD_MIN_THRESHOLD=0.010, VAD_AMBIENT_MULTIPLIER=3,
VAD_SUSTAINED_CHUNKS=2, VAD_COOLDOWN_MS=1000, VAD_PROMPT_GRACE_SECONDS=8
(held here in milliseconds, 8000), VAD_CHUNK_BYTES=4000,
VAD_SILENCE_CHUNKS_TO_PROMPT=6, VAD_AMBIENT_LEARNING_CHUNKS=2,
MAX_NO_RESPONSE_ATTEMPTS=3. -/
def defaultSessionConfig : SessionConfig :=
  { minThreshold := 1/100
    ambientMultiplier := 3
    sustainedChunks := 2
    cooldownMs := 1000
    promptGraceMs := 8000
    chunkBytes := 4000
    silenceChunksToPrompt := 6
    ambientLearningChunks := 2
    maxNoResponseAttempts := 3 }

/-- Utterances synthesized by the session: the greeting, the speak-louder
prompt, the farewell, and conversational replies. -/
inductive Utterance where
  | greeting
  | louderPrompt
  | farewell
  | reply (text : String)
deriving DecidableEq

/-- External collaborators of one session, as oracles: `rmsOf` is the
observed RMS of a PCM chunk (a float in the source, abstracted to a
rational reading), `gate` the combined VAD decision given the chunk and the
adaptive threshold, `stt` the transcriber applied to the buffered wire
bytes, `chat` the conversational agent, `tts` the synthesizer, and
`transport` reports whether sending one frame over the WebSocket
succeeds. -/
structure Collaborators where
  rmsOf : List Int → ℚ
  gate : List Int → ℚ → Bool
  stt : List Nat → Option String
  chat : String → Option String
  tts : Utterance → List Nat
  transport : List Nat → Bool

/-- Local state of the `media_stream` loop. Observables added for the
specification: `farewellSent`, `promptsSent`, `sttCalls`,
`processedBuffers` (the buffers handed to speech-to-text, in order) and
`sentFrames` (the frames accepted by the transport, in order). `ended`
records that the loop has exited (a `break`, after which no event is
handled). -/
structure SessionState where
  audioBuffer : List Nat
  greetingSent : Bool
  agentSpeaking : Bool
  isProcessing : Bool
  silenceCounter : Nat
  speechCounter : Nat
  noResponseAttempts : Nat
  ambientSamples : List ℚ
  ambientThreshold : ℚ
  learningAmbient : Bool
  inputUnmuteAt : Int
  noPromptUntil : Int
  ended : Bool
  farewellSent : Bool
  promptsSent : Nat
  sttCalls : Nat
  processedBuffers : List (List Nat)
  sentFrames : List (List Nat)
deriving DecidableEq

/-- Initial local state of the loop (lines 546-566): empty buffer, counters
zero, ambient threshold at the configured floor, ambient learning on. -/
def initialState (cfg : SessionConfig) : SessionState :=
  { audioBuffer := []
    greetingSent := false
    agentSpeaking := false
    isProcessing := false
    silenceCounter := 0
    speechCounter := 0
    noResponseAttempts := 0
    ambientSamples := []
    ambientThreshold := cfg.minThreshold
    learningAmbient := true
    inputUnmuteAt := 0
    noPromptUntil := 0
    ended := false
    farewellSent := false
    promptsSent := 0
    sttCalls := 0
    processedBuffers := []
    sentFrames := [] }

/-- Inbound wire events (telephony media-streaming transport). -/
inductive WsEvent where
  | start (t : Int)
  | media (t : Int) (payload : List Nat)
  | stop
deriving DecidableEq

/-- Arithmetic mean `np.mean` of a list of rational readings. -/
def rationalMean (l : List ℚ) : ℚ := l.sum / (l.length : ℚ)

/-- The 80 ms outbound frames of `send_audio_to_twilio`: slices of 640
bytes starting at multiples of 640; all full except possibly the last. -/
def frameChunks (bytes : List Nat) : List (List Nat) :=
  (List.range ((bytes.length + 639) / 640)).map
    (fun i => (bytes.drop (640 * i)).take 640)

/-- Frames actually transmitted: frames are sent in order until the first
transport failure, which aborts the remaining send (the raised exception
skips the rest of the loop and is caught at function level). -/
def transmitFrames (transport : List Nat → Bool) : List (List Nat) → List (List Nat)
  | [] => []
  | f :: rest => if transport f then f :: transmitFrames transport rest else []

/-- Model of `send_audio_to_twilio`: synthesize the utterance, cut the wire
bytes into fixed frames, transmit until the first failure. Any failure is
caught inside this function and only logged, so only the transmitted
frames are observable; no error reaches the caller. -/
def send_audio_to_twilio (co : Collaborators) (u : Utterance) : List (List Nat) :=
  transmitFrames co.transport (frameChunks (co.tts u))

/-- Ambient-calibration bookkeeping (lines 717-731): append the RMS reading
of a nonempty chunk; once exactly `AMBIENT_LEARNING_CHUNKS` samples are
collected, set the threshold to `max(VAD_MIN_THRESHOLD, mean *
VAD_AMBIENT_MULTIPLIER)` and stop learning. -/
def learnAmbient (cfg : SessionConfig) (co : Collaborators) (s : SessionState)
    (pcm : List Int) : SessionState :=
  let samples := if 0 < pcm.length then s.ambientSamples ++ [co.rmsOf pcm]
                 else s.ambientSamples
  if samples.length = cfg.ambientLearningChunks then
    { s with
      ambientSamples := samples
      ambientThreshold := max cfg.minThreshold
        (rationalMean samples * cfg.ambientMultiplier)
      learningAmbient := false }
  else { s with ambientSamples := samples }

/-- A processed turn (lines 792-831): the buffered wire audio is handed to
speech-to-text (one call, counted and logged in `processedBuffers`); a
nonempty transcript goes to the conversational agent and a nonempty reply
is synthesized and streamed; in every case the buffer is cleared and the
speech counter reset before the busy flag is released. -/
def processTurn (cfg : SessionConfig) (co : Collaborators) (s : SessionState)
    (t : Int) : SessionState :=
  let s3 := { s with
    speechCounter := 0
    audioBuffer := []
    sttCalls := s.sttCalls + 1
    processedBuffers := s.processedBuffers ++ [s.audioBuffer] }
  match co.stt s.audioBuffer with
  | none => s3
  | some txt =>
    if txt = "" then s3
    else
      match co.chat txt with
      | none => s3
      | some ai =>
        if ai = "" then s3
        else
          { s3 with
            sentFrames := s3.sentFrames ++
              send_audio_to_twilio co (Utterance.reply ai)
            inputUnmuteAt := t + (cfg.cooldownMs : Int)
            noPromptUntil := t + (cfg.promptGraceMs : Int) }

/-- One gated chunk (lines 711-831), entered with the full buffer already in
`s.audioBuffer`: the busy flag `is_processing` is set at entry and cleared
on every exit path, so it is false again at the step boundary. Calibration
chunks only record ambient RMS; failing chunks reset the speech counter,
bump the silence counter and possibly escalate to a prompt or the farewell;
passing chunks bump the speech counter and, at the sustained threshold,
run the speech-to-text / agent / text-to-speech turn and clear the
buffer. -/
def gatedChunk (cfg : SessionConfig) (co : Collaborators) (s : SessionState)
    (t : Int) : SessionState :=
  let pcm := ulaw2lin s.audioBuffer
  if s.learningAmbient = true ∧ s.ambientSamples.length < cfg.ambientLearningChunks then
    { learnAmbient cfg co s pcm with audioBuffer := [] }
  else if co.gate pcm s.ambientThreshold = false then
    let silence := s.silenceCounter + 1
    let s1 := { s with
                audioBuffer := []
                speechCounter := 0
                silenceCounter := silence }
    if cfg.silenceChunksToPrompt ≤ silence ∧ s.noPromptUntil ≤ t then
      let attempts := s.noResponseAttempts + 1
      if cfg.maxNoResponseAttempts ≤ attempts then
        { s1 with
          noResponseAttempts := attempts
          farewellSent := true
          ended := true
          sentFrames := s1.sentFrames ++ send_audio_to_twilio co Utterance.farewell }
      else
        { s1 with
          noResponseAttempts := attempts
          silenceCounter := 0
          promptsSent := s1.promptsSent + 1
          sentFrames := s1.sentFrames ++ send_audio_to_twilio co Utterance.louderPrompt
          inputUnmuteAt := t + (cfg.cooldownMs : Int)
          noPromptUntil := t + (cfg.promptGraceMs : Int) }
    else s1
  else
    let s2 := { s with silenceCounter := 0, noResponseAttempts := 0 }
    if s.speechCounter + 1 < max 1 cfg.sustainedChunks then
      { s2 with speechCounter := s.speechCounter + 1 }
    else
      processTurn cfg co s2 t

/-- One inbound media event (lines 675-831): during agent speech only
ambient learning runs on 16000-byte batches; otherwise the payload is
appended to the buffer, discarded in chunk-size units during the post-TTS
cooldown, and handed to `gatedChunk` once at least `VAD_CHUNK_BYTES` are
buffered and the busy flag is clear. -/
def stepMedia (cfg : SessionConfig) (co : Collaborators) (s : SessionState)
    (t : Int) (payload : List Nat) : SessionState :=
  if s.agentSpeaking = true then
    let buf := s.audioBuffer ++ payload
    if 16000 ≤ buf.length then
      let pcm := ulaw2lin buf
      if s.learningAmbient = true ∧ s.ambientSamples.length < cfg.ambientLearningChunks then
        if 0 < pcm.length then { learnAmbient cfg co s pcm with audioBuffer := [] }
        else { s with audioBuffer := [] }
      else { s with audioBuffer := [] }
    else { s with audioBuffer := buf }
  else
    let buf := s.audioBuffer ++ payload
    if t < s.inputUnmuteAt then
      if cfg.chunkBytes ≤ buf.length then { s with audioBuffer := [] }
      else { s with audioBuffer := buf }
    else if cfg.chunkBytes ≤ buf.length ∧ s.isProcessing = false then
      gatedChunk cfg co { s with audioBuffer := buf } t
    else { s with audioBuffer := buf }

/-- The start event (lines 577-673): session bootstrap, greeting synthesis
and send, post-greeting cooldown and grace deadline, buffer cleared. The
greeting runs only once (`if not greeting_sent`). -/
def stepStart (cfg : SessionConfig) (co : Collaborators) (s : SessionState)
    (t : Int) : SessionState :=
  if s.greetingSent = false then
    { s with
      greetingSent := true
      sentFrames := s.sentFrames ++ send_audio_to_twilio co Utterance.greeting
      inputUnmuteAt := t + (cfg.cooldownMs : Int)
      noPromptUntil := t + (cfg.promptGraceMs : Int)
      audioBuffer := [] }
  else s

/-- One loop iteration: after the loop has exited (`ended`) no event is
received or handled; a stop event breaks out of the loop. -/
def step (cfg : SessionConfig) (co : Collaborators) (s : SessionState) :
    WsEvent → SessionState
  | WsEvent.start t => if s.ended = true then s else stepStart cfg co s t
  | WsEvent.media t payload =>
      if s.ended = true then s else stepMedia cfg co s t payload
  | WsEvent.stop => if s.ended = true then s else { s with ended := true }

/-- Run the session loop over a list of inbound events in arrival order. -/
def runSession (cfg : SessionConfig) (co : Collaborators) (s : SessionState)
    (events : List WsEvent) : SessionState :=
  events.foldl (step cfg co) s

/-! ### Basic step lemmas -/

theorem step_of_ended (cfg : SessionConfig) (co : Collaborators)
    (s : SessionState) (e : WsEvent) (h : s.ended = true) :
    step cfg co s e = s := by
  cases e <;> simp [step, h]

theorem step_stop_ended (cfg : SessionConfig) (co : Collaborators)
    (s : SessionState) : (step cfg co s WsEvent.stop).ended = true := by
  simp only [step]
  split
  · next h => exact h
  · rfl

theorem runSession_append (cfg : SessionConfig) (co : Collaborators)
    (s : SessionState) (es fs : List WsEvent) :
    runSession cfg co s (es ++ fs) =
      runSession cfg co (runSession cfg co s es) fs := by
  simp [runSession, List.foldl_append]

theorem runSession_of_ended (cfg : SessionConfig) (co : Collaborators)
    (s : SessionState) (es : List WsEvent) (h : s.ended = true) :
    runSession cfg co s es = s := by
  induction es with
  | nil => rfl
  | cons e es ih =>
    show runSession cfg co (step cfg co s e) es = s
    rw [step_of_ended cfg co s e h]
    exact ih

theorem learnAmbient_preserved (cfg : SessionConfig) (co : Collaborators)
    (s : SessionState) (pcm : List Int) :
    (learnAmbient cfg co s pcm).audioBuffer = s.audioBuffer ∧
    (learnAmbient cfg co s pcm).silenceCounter = s.silenceCounter ∧
    (learnAmbient cfg co s pcm).speechCounter = s.speechCounter ∧
    (learnAmbient cfg co s pcm).noResponseAttempts = s.noResponseAttempts ∧
    (learnAmbient cfg co s pcm).sttCalls = s.sttCalls ∧
    (learnAmbient cfg co s pcm).processedBuffers = s.processedBuffers ∧
    (learnAmbient cfg co s pcm).ended = s.ended ∧
    (learnAmbient cfg co s pcm).farewellSent = s.farewellSent ∧
    (learnAmbient cfg co s pcm).promptsSent = s.promptsSent ∧
    (learnAmbient cfg co s pcm).inputUnmuteAt = s.inputUnmuteAt ∧
    (learnAmbient cfg co s pcm).noPromptUntil = s.noPromptUntil ∧
    (learnAmbient cfg co s pcm).sentFrames = s.sentFrames ∧
    (learnAmbient cfg co s pcm).isProcessing = s.isProcessing ∧
    (learnAmbient cfg co s pcm).agentSpeaking = s.agentSpeaking ∧
    (learnAmbient cfg co s pcm).greetingSent = s.greetingSent := by
  unfold learnAmbient
  by_cases hp : 0 < pcm.length <;> simp [hp] <;> split <;> simp

theorem learnAmbient_processedBuffers (cfg : SessionConfig) (co : Collaborators)
    (s : SessionState) (pcm : List Int) :
    (learnAmbient cfg co s pcm).processedBuffers = s.processedBuffers :=
  (learnAmbient_preserved cfg co s pcm).2.2.2.2.2.1

theorem learnAmbient_sttCalls (cfg : SessionConfig) (co : Collaborators)
    (s : SessionState) (pcm : List Int) :
    (learnAmbient cfg co s pcm).sttCalls = s.sttCalls :=
  (learnAmbient_preserved cfg co s pcm).2.2.2.2.1

theorem learnAmbient_silence (cfg : SessionConfig) (co : Collaborators)
    (s : SessionState) (pcm : List Int) :
    (learnAmbient cfg co s pcm).silenceCounter = s.silenceCounter :=
  (learnAmbient_preserved cfg co s pcm).2.1

theorem learnAmbient_speech (cfg : SessionConfig) (co : Collaborators)
    (s : SessionState) (pcm : List Int) :
    (learnAmbient cfg co s pcm).speechCounter = s.speechCounter :=
  (learnAmbient_preserved cfg co s pcm).2.2.1

theorem learnAmbient_ended (cfg : SessionConfig) (co : Collaborators)
    (s : SessionState) (pcm : List Int) :
    (learnAmbient cfg co s pcm).ended = s.ended :=
  (learnAmbient_preserved cfg co s pcm).2.2.2.2.2.2.1

theorem processTurn_spec (cfg : SessionConfig) (co : Collaborators)
    (s : SessionState) (t : Int) :
    (processTurn cfg co s t).sttCalls = s.sttCalls + 1 ∧
    (processTurn cfg co s t).audioBuffer = [] ∧
    (processTurn cfg co s t).speechCounter = 0 ∧
    (processTurn cfg co s t).processedBuffers = s.processedBuffers ++ [s.audioBuffer] ∧
    (processTurn cfg co s t).silenceCounter = s.silenceCounter ∧
    (processTurn cfg co s t).noResponseAttempts = s.noResponseAttempts ∧
    (processTurn cfg co s t).ended = s.ended ∧
    (processTurn cfg co s t).farewellSent = s.farewellSent ∧
    (processTurn cfg co s t).isProcessing = s.isProcessing ∧
    (processTurn cfg co s t).learningAmbient = s.learningAmbient ∧
    (processTurn cfg co s t).ambientThreshold = s.ambientThreshold ∧
    (processTurn cfg co s t).ambientSamples = s.ambientSamples ∧
    (processTurn cfg co s t).agentSpeaking = s.agentSpeaking ∧
    (processTurn cfg co s t).promptsSent = s.promptsSent := by
  unfold processTurn
  cases hstt : co.stt s.audioBuffer with
  | none => simp [hstt]
  | some txt =>
    by_cases htxt : txt = ""
    · simp [hstt, htxt]
    · cases hchat : co.chat txt with
      | none => simp [hstt, htxt, hchat]
      | some ai =>
        by_cases hai : ai = ""
        · simp [hstt, htxt, hchat, hai]
        · simp [hstt, htxt, hchat, hai]

theorem processTurn_processedBuffers (cfg : SessionConfig) (co : Collaborators)
    (s : SessionState) (t : Int) :
    (processTurn cfg co s t).processedBuffers = s.processedBuffers ++ [s.audioBuffer] :=
  (processTurn_spec cfg co s t).2.2.2.1

theorem processTurn_sttCalls (cfg : SessionConfig) (co : Collaborators)
    (s : SessionState) (t : Int) :
    (processTurn cfg co s t).sttCalls = s.sttCalls + 1 :=
  (processTurn_spec cfg co s t).1

theorem processTurn_ended (cfg : SessionConfig) (co : Collaborators)
    (s : SessionState) (t : Int) :
    (processTurn cfg co s t).ended = s.ended :=
  (processTurn_spec cfg co s t).2.2.2.2.2.2.1

/-! ### Branch characterizations of one gated chunk -/

theorem step_media_gated (cfg : SessionConfig) (co : Collaborators)
    (s : SessionState) (t : Int) (p : List Nat)
    (hend : s.ended = false) (hspk : s.agentSpeaking = false)
    (hmute : ¬ t < s.inputUnmuteAt)
    (hlen : cfg.chunkBytes ≤ s.audioBuffer.length + p.length)
    (hproc : s.isProcessing = false) :
    step cfg co s (WsEvent.media t p) =
      gatedChunk cfg co { s with audioBuffer := s.audioBuffer ++ p } t := by
  simp [step, hend, stepMedia, hspk, hmute, hlen, hproc]

theorem gatedChunk_learning (cfg : SessionConfig) (co : Collaborators)
    (s : SessionState) (t : Int)
    (hl : s.learningAmbient = true)
    (hc : s.ambientSamples.length < cfg.ambientLearningChunks) :
    gatedChunk cfg co s t =
      { learnAmbient cfg co s (ulaw2lin s.audioBuffer) with audioBuffer := [] } := by
  simp [gatedChunk, hl, hc]

theorem gatedChunk_fail_quiet (cfg : SessionConfig) (co : Collaborators)
    (s : SessionState) (t : Int)
    (hnl : ¬ (s.learningAmbient = true ∧
      s.ambientSamples.length < cfg.ambientLearningChunks))
    (hg : co.gate (ulaw2lin s.audioBuffer) s.ambientThreshold = false)
    (hnp : ¬ (cfg.silenceChunksToPrompt ≤ s.silenceCounter + 1 ∧
      s.noPromptUntil ≤ t)) :
    gatedChunk cfg co s t =
      { s with
        audioBuffer := []
        speechCounter := 0
        silenceCounter := s.silenceCounter + 1 } := by
  simp [gatedChunk, hnl, hg, hnp]

theorem gatedChunk_fail_prompt (cfg : SessionConfig) (co : Collaborators)
    (s : SessionState) (t : Int)
    (hnl : ¬ (s.learningAmbient = true ∧
      s.ambientSamples.length < cfg.ambientLearningChunks))
    (hg : co.gate (ulaw2lin s.audioBuffer) s.ambientThreshold = false)
    (hp1 : cfg.silenceChunksToPrompt ≤ s.silenceCounter + 1)
    (hp2 : s.noPromptUntil ≤ t)
    (hatt : ¬ cfg.maxNoResponseAttempts ≤ s.noResponseAttempts + 1) :
    gatedChunk cfg co s t =
      { s with
        audioBuffer := []
        speechCounter := 0
        silenceCounter := 0
        noResponseAttempts := s.noResponseAttempts + 1
        promptsSent := s.promptsSent + 1
        sentFrames := s.sentFrames ++ send_audio_to_twilio co Utterance.louderPrompt
        inputUnmuteAt := t + (cfg.cooldownMs : Int)
        noPromptUntil := t + (cfg.promptGraceMs : Int) } := by
  simp [gatedChunk, hnl, hg, hp1, hp2, hatt]

theorem gatedChunk_fail_terminate (cfg : SessionConfig) (co : Collaborators)
    (s : SessionState) (t : Int)
    (hnl : ¬ (s.learningAmbient = true ∧
      s.ambientSamples.length < cfg.ambientLearningChunks))
    (hg : co.gate (ulaw2lin s.audioBuffer) s.ambientThreshold = false)
    (hp1 : cfg.silenceChunksToPrompt ≤ s.silenceCounter + 1)
    (hp2 : s.noPromptUntil ≤ t)
    (hatt : cfg.maxNoResponseAttempts ≤ s.noResponseAttempts + 1) :
    gatedChunk cfg co s t =
      { s with
        audioBuffer := []
        speechCounter := 0
        silenceCounter := s.silenceCounter + 1
        noResponseAttempts := s.noResponseAttempts + 1
        farewellSent := true
        ended := true
        sentFrames := s.sentFrames ++ send_audio_to_twilio co Utterance.farewell } := by
  simp [gatedChunk, hnl, hg, hp1, hp2, hatt]

theorem gatedChunk_pass_accumulate (cfg : SessionConfig) (co : Collaborators)
    (s : SessionState) (t : Int)
    (hnl : ¬ (s.learningAmbient = true ∧
      s.ambientSamples.length < cfg.ambientLearningChunks))
    (hg : co.gate (ulaw2lin s.audioBuffer) s.ambientThreshold = true)
    (hs : s.speechCounter + 1 < max 1 cfg.sustainedChunks) :
    gatedChunk cfg co s t =
      { s with
        speechCounter := s.speechCounter + 1
        silenceCounter := 0
        noResponseAttempts := 0 } := by
  simp [gatedChunk, hnl, hg, hs]

theorem gatedChunk_pass_trigger (cfg : SessionConfig) (co : Collaborators)
    (s : SessionState) (t : Int)
    (hnl : ¬ (s.learningAmbient = true ∧
      s.ambientSamples.length < cfg.ambientLearningChunks))
    (hg : co.gate (ulaw2lin s.audioBuffer) s.ambientThreshold = true)
    (hs : ¬ s.speechCounter + 1 < max 1 cfg.sustainedChunks) :
    gatedChunk cfg co s t =
      processTurn cfg co
        { s with silenceCounter := 0, noResponseAttempts := 0 } t := by
  simp [gatedChunk, hnl, hg, hs]

theorem learnAmbient_spec (cfg : SessionConfig) (co : Collaborators)
    (s : SessionState) (pcm : List Int) (hpcm : 0 < pcm.length) :
    (learnAmbient cfg co s pcm).ambientSamples =
      s.ambientSamples ++ [co.rmsOf pcm] ∧
    (s.ambientSamples.length + 1 = cfg.ambientLearningChunks →
      (learnAmbient cfg co s pcm).learningAmbient = false ∧
      (learnAmbient cfg co s pcm).ambientThreshold =
        max cfg.minThreshold
          (rationalMean (s.ambientSamples ++ [co.rmsOf pcm]) *
            cfg.ambientMultiplier)) ∧
    (s.ambientSamples.length + 1 ≠ cfg.ambientLearningChunks →
      (learnAmbient cfg co s pcm).learningAmbient = s.learningAmbient ∧
      (learnAmbient cfg co s pcm).ambientThreshold = s.ambientThreshold) := by
  unfold learnAmbient
  by_cases hk : s.ambientSamples.length + 1 = cfg.ambientLearningChunks <;>
    simp [hpcm, hk]

theorem step_sttCalls_le (cfg : SessionConfig) (co : Collaborators)
    (s : SessionState) (e : WsEvent) :
    (step cfg co s e).sttCalls ≤ s.sttCalls + 1 := by
  cases e with
  | start t =>
    by_cases he : s.ended = true <;> simp [step, he, stepStart, apply_ite]
  | stop =>
    by_cases he : s.ended = true <;> simp [step, he]
  | media t p =>
    by_cases he : s.ended = true
    · simp [step, he]
    by_cases hspk : s.agentSpeaking = true
    · simp [step, he, stepMedia, hspk, apply_ite, learnAmbient_sttCalls]
    by_cases hmute : t < s.inputUnmuteAt
    · simp [step, he, stepMedia, hspk, hmute, apply_ite]
    by_cases hbig : cfg.chunkBytes ≤ s.audioBuffer.length + p.length ∧
        s.isProcessing = false
    · have h2 : (step cfg co s (WsEvent.media t p)).sttCalls =
          (gatedChunk cfg co { s with audioBuffer := s.audioBuffer ++ p } t).sttCalls := by
        simp [step, he, stepMedia, hspk, hmute, hbig]
      rw [h2]
      set s2 := { s with audioBuffer := s.audioBuffer ++ p } with hs2
      have hcalls : s2.sttCalls = s.sttCalls := by simp [hs2]
      rw [← hcalls]
      by_cases hl : s2.learningAmbient = true ∧
          s2.ambientSamples.length < cfg.ambientLearningChunks
      · simp [gatedChunk_learning cfg co s2 t hl.1 hl.2, learnAmbient_sttCalls]
      by_cases hg : co.gate (ulaw2lin s2.audioBuffer) s2.ambientThreshold = false
      · by_cases hnp : cfg.silenceChunksToPrompt ≤ s2.silenceCounter + 1 ∧
            s2.noPromptUntil ≤ t
        · by_cases hatt : cfg.maxNoResponseAttempts ≤ s2.noResponseAttempts + 1
          · simp [gatedChunk_fail_terminate cfg co s2 t hl hg hnp.1 hnp.2 hatt]
          · simp [gatedChunk_fail_prompt cfg co s2 t hl hg hnp.1 hnp.2 hatt]
        · simp [gatedChunk_fail_quiet cfg co s2 t hl hg hnp]
      · have hg2 : co.gate (ulaw2lin s2.audioBuffer) s2.ambientThreshold = true := by
          revert hg
          cases co.gate (ulaw2lin s2.audioBuffer) s2.ambientThreshold <;> simp
        by_cases hs : s2.speechCounter + 1 < max 1 cfg.sustainedChunks
        · simp [gatedChunk_pass_accumulate cfg co s2 t hl hg2 hs]
        · simp [gatedChunk_pass_trigger cfg co s2 t hl hg2 hs, processTurn_sttCalls]
    · simp [step, he, stepMedia, hspk, hmute, hbig]

theorem gatedChunk_processed_mono (cfg : SessionConfig) (co : Collaborators)
    (s : SessionState) (t : Int) :
    ∃ tail, (gatedChunk cfg co s t).processedBuffers =
      s.processedBuffers ++ tail := by
  by_cases hl : s.learningAmbient = true ∧
      s.ambientSamples.length < cfg.ambientLearningChunks
  · exact ⟨[], by simp [gatedChunk, hl, learnAmbient_processedBuffers]⟩
  by_cases hg : co.gate (ulaw2lin s.audioBuffer) s.ambientThreshold = false
  · exact ⟨[], by simp [gatedChunk, hl, hg, apply_ite]⟩
  by_cases hs : s.speechCounter + 1 < max 1 cfg.sustainedChunks
  · exact ⟨[], by simp [gatedChunk, hl, hg, hs]⟩
  · exact ⟨[s.audioBuffer], by simp [gatedChunk, hl, hg, hs, processTurn_processedBuffers]⟩

theorem step_processed_mono (cfg : SessionConfig) (co : Collaborators)
    (s : SessionState) (e : WsEvent) :
    ∃ tail, (step cfg co s e).processedBuffers =
      s.processedBuffers ++ tail := by
  cases e with
  | start t =>
    exact ⟨[], by by_cases he : s.ended = true <;> simp [step, he, stepStart, apply_ite]⟩
  | stop =>
    exact ⟨[], by by_cases he : s.ended = true <;> simp [step, he]⟩
  | media t p =>
    by_cases he : s.ended = true
    · exact ⟨[], by simp [step, he]⟩
    by_cases hspk : s.agentSpeaking = true
    · exact ⟨[], by
        simp [step, he, stepMedia, hspk, apply_ite, learnAmbient_processedBuffers]⟩
    by_cases hmute : t < s.inputUnmuteAt
    · exact ⟨[], by simp [step, he, stepMedia, hspk, hmute, apply_ite]⟩
    by_cases hbig : cfg.chunkBytes ≤ s.audioBuffer.length + p.length ∧
        s.isProcessing = false
    · obtain ⟨tail, htail⟩ :=
        gatedChunk_processed_mono cfg co { s with audioBuffer := s.audioBuffer ++ p } t
      refine ⟨tail, ?_⟩
      simp [step, stepMedia, he, hspk, hmute, hbig] at htail ⊢
      exact htail
    · exact ⟨[], by simp [step, he, stepMedia, hspk, hmute, hbig]⟩

theorem runSession_processed_mono (cfg : SessionConfig) (co : Collaborators)
    (s : SessionState) (es : List WsEvent) :
    ∃ tail, (runSession cfg co s es).processedBuffers =
      s.processedBuffers ++ tail := by
  induction es generalizing s with
  | nil => exact ⟨[], by simp [runSession]⟩
  | cons e es ih =>
    obtain ⟨t1, h1⟩ := step_processed_mono cfg co s e
    obtain ⟨t2, h2⟩ := ih (step cfg co s e)
    refine ⟨t1 ++ t2, ?_⟩
    show (runSession cfg co (step cfg co s e) es).processedBuffers = _
    rw [h2, h1, List.append_assoc]

/-- C8. Stop event finality and ordering: a stop event in any state yields
an ended session; any event after the session has ended is a no-op; a run
over any trace containing a stop event equals the run truncated right
after that stop event (no chunk after a stop is ever processed); and the
processed-buffer log over any extended trace extends the log of its
prefix, so chunks are processed in arrival order. -/
theorem stop_finality_and_order :
    (∀ (cfg : SessionConfig) (co : Collaborators) (s : SessionState),
      (step cfg co s WsEvent.stop).ended = true) ∧
    (∀ (cfg : SessionConfig) (co : Collaborators) (s : SessionState)
      (e : WsEvent), s.ended = true → step cfg co s e = s) ∧
    (∀ (cfg : SessionConfig) (co : Collaborators) (s : SessionState)
      (es₁ es₂ : List WsEvent),
      runSession cfg co s (es₁ ++ WsEvent.stop :: es₂) =
        runSession cfg co s (es₁ ++ [WsEvent.stop])) ∧
    (∀ (cfg : SessionConfig) (co : Collaborators) (s : SessionState)
      (es es' : List WsEvent), ∃ tail,
      (runSession cfg co s (es ++ es')).processedBuffers =
        (runSession cfg co s es).processedBuffers ++ tail) := by
  refine ⟨step_stop_ended, step_of_ended, ?_, ?_⟩
  · intro cfg co s es₁ es₂
    rw [runSession_append, runSession_append]
    have hstop : ∀ s0 : SessionState,
        runSession cfg co s0 (WsEvent.stop :: es₂) =
          runSession cfg co s0 [WsEvent.stop] := by
      intro s0
      show runSession cfg co (step cfg co s0 WsEvent.stop) es₂ =
        runSession cfg co (step cfg co s0 WsEvent.stop) []
      rw [runSession_of_ended cfg co _ es₂ (step_stop_ended cfg co s0)]
      rfl
    exact hstop _
  · intro cfg co s es es'
    rw [runSession_append]
    exact runSession_processed_mono cfg co _ es'

/-- Collaborators whose gate always rejects: used to instantiate claims on
all-failing chunk sequences and as a neutral witness environment. -/
def rejectAllCollab : Collaborators :=
  { rmsOf := fun _ => 1/500
    gate := fun _ _ => false
    stt := fun _ => none
    chat := fun _ => none
    tts := fun _ => []
    transport := fun _ => true }

/-- Closed instance of C8: events after an ended state are no-ops. -/
theorem stop_finality_and_order_witness :
    step defaultSessionConfig rejectAllCollab
      { initialState defaultSessionConfig with ended := true }
      WsEvent.stop =
    { initialState defaultSessionConfig with ended := true } :=
  stop_finality_and_order.2.1 _ _ _ WsEvent.stop rfl


/-! ### Concrete configurations and collaborators for scenario instances -/

/-- Legal configuration with ambient learning disabled and a 2-byte chunk
size (both environment-tunable). -/
def noCalibConfig : SessionConfig :=
  { defaultSessionConfig with ambientLearningChunks := 0, chunkBytes := 2 }

/-- Legal configuration with three ambient-calibration chunks and a 2-byte
chunk size. -/
def calibConfig3 : SessionConfig :=
  { defaultSessionConfig with ambientLearningChunks := 3, chunkBytes := 2 }

/-- Collaborators whose gate always accepts. -/
def acceptAllCollab : Collaborators :=
  { rejectAllCollab with gate := fun _ _ => true }

/-- Collaborators with an always-accepting gate and prescribed
speech-to-text and conversational-agent oracles. -/
def demoCollab (sttFun : List Nat → Option String)
    (chatFun : String → Option String) : Collaborators :=
  { rejectAllCollab with
    gate := fun _ _ => true
    stt := sttFun
    chat := chatFun }

theorem step_isProcessing_eq (cfg : SessionConfig) (co : Collaborators)
    (s : SessionState) (e : WsEvent) :
    (step cfg co s e).isProcessing = s.isProcessing := by
  cases e with
  | start t =>
    by_cases he : s.ended = true <;> simp [step, he, stepStart, apply_ite]
  | stop =>
    by_cases he : s.ended = true <;> simp [step, he]
  | media t p =>
    by_cases he : s.ended = true
    · simp [step, he]
    by_cases hspk : s.agentSpeaking = true
    · simp [step, he, stepMedia, hspk, apply_ite,
        (learnAmbient_preserved cfg co s (ulaw2lin (s.audioBuffer ++ p))).2.2.2.2.2.2.2.2.2.2.2.2.1]
    by_cases hmute : t < s.inputUnmuteAt
    · simp [step, he, stepMedia, hspk, hmute, apply_ite]
    by_cases hbig : cfg.chunkBytes ≤ s.audioBuffer.length + p.length ∧
        s.isProcessing = false
    · have h2 : (step cfg co s (WsEvent.media t p)).isProcessing =
          (gatedChunk cfg co { s with audioBuffer := s.audioBuffer ++ p } t).isProcessing := by
        simp [step, he, stepMedia, hspk, hmute, hbig]
      rw [h2]
      set s2 := { s with audioBuffer := s.audioBuffer ++ p } with hs2
      have hip : s2.isProcessing = s.isProcessing := by simp [hs2]
      rw [← hip]
      by_cases hl : s2.learningAmbient = true ∧
          s2.ambientSamples.length < cfg.ambientLearningChunks
      · simp [gatedChunk_learning cfg co s2 t hl.1 hl.2,
          (learnAmbient_preserved cfg co s2 (ulaw2lin s2.audioBuffer)).2.2.2.2.2.2.2.2.2.2.2.2.1]
      by_cases hg : co.gate (ulaw2lin s2.audioBuffer) s2.ambientThreshold = false
      · by_cases hnp : cfg.silenceChunksToPrompt ≤ s2.silenceCounter + 1 ∧
            s2.noPromptUntil ≤ t
        · by_cases hatt : cfg.maxNoResponseAttempts ≤ s2.noResponseAttempts + 1
          · simp [gatedChunk_fail_terminate cfg co s2 t hl hg hnp.1 hnp.2 hatt]
          · simp [gatedChunk_fail_prompt cfg co s2 t hl hg hnp.1 hnp.2 hatt]
        · simp [gatedChunk_fail_quiet cfg co s2 t hl hg hnp]
      · have hg2 : co.gate (ulaw2lin s2.audioBuffer) s2.ambientThreshold = true := by
          revert hg
          cases co.gate (ulaw2lin s2.audioBuffer) s2.ambientThreshold <;> simp
        by_cases hs : s2.speechCounter + 1 < max 1 cfg.sustainedChunks
        · simp [gatedChunk_pass_accumulate cfg co s2 t hl hg2 hs]
        · simp [gatedChunk_pass_trigger cfg co s2 t hl hg2 hs,
            (processTurn_spec cfg co _ t).2.2.2.2.2.2.2.2.1]
    · simp [step, he, stepMedia, hspk, hmute, hbig]

theorem calib_step1 :
    step calibConfig3 rejectAllCollab (initialState calibConfig3)
      (WsEvent.media 1 [0, 0]) =
      { initialState calibConfig3 with ambientSamples := [1/500] } := by
  rw [step_media_gated _ _ _ _ _ rfl rfl (by decide) (by decide) rfl]
  rw [gatedChunk_learning _ _ _ _ rfl (by decide)]
  simp [learnAmbient, initialState, calibConfig3, defaultSessionConfig,
    rejectAllCollab, ulaw2lin]

theorem calib_step2 :
    step calibConfig3 rejectAllCollab
      { initialState calibConfig3 with ambientSamples := [1/500] }
      (WsEvent.media 2 [0, 0]) =
      { initialState calibConfig3 with ambientSamples := [1/500, 1/500] } := by
  rw [step_media_gated _ _ _ _ _ rfl rfl (by decide) (by decide) rfl]
  rw [gatedChunk_learning _ _ _ _ rfl (by decide)]
  simp [learnAmbient, initialState, calibConfig3, defaultSessionConfig,
    rejectAllCollab, ulaw2lin]

theorem calib_step3 :
    step calibConfig3 rejectAllCollab
      { initialState calibConfig3 with ambientSamples := [1/500, 1/500] }
      (WsEvent.media 3 [0, 0]) =
      { initialState calibConfig3 with
        ambientSamples := [1/500, 1/500, 1/500]
        ambientThreshold := max calibConfig3.minThreshold
          (rationalMean [1/500, 1/500, 1/500] * calibConfig3.ambientMultiplier)
        learningAmbient := false } := by
  rw [step_media_gated _ _ _ _ _ rfl rfl (by decide) (by decide) rfl]
  rw [gatedChunk_learning _ _ _ _ rfl (by decide)]
  simp [learnAmbient, initialState, calibConfig3, defaultSessionConfig,
    rejectAllCollab, ulaw2lin]

theorem calib_run :
    runSession calibConfig3 rejectAllCollab (initialState calibConfig3)
      [WsEvent.media 1 [0, 0], WsEvent.media 2 [0, 0], WsEvent.media 3 [0, 0]] =
      { initialState calibConfig3 with
        ambientSamples := [1/500, 1/500, 1/500]
        ambientThreshold := max calibConfig3.minThreshold
          (rationalMean [1/500, 1/500, 1/500] * calibConfig3.ambientMultiplier)
        learningAmbient := false } := by
  simp only [runSession, List.foldl_cons, List.foldl_nil]
  rw [calib_step1, calib_step2, calib_step3]

/-- C1. Ambient calibration: while the session is learning and has fewer
than `VAD_AMBIENT_LEARNING_CHUNKS` samples, a gated chunk records its RMS
reading and counts neither as speech nor as silence; once the sample count
reaches the configured number, the threshold is set to
`max(VAD_MIN_THRESHOLD, mean * VAD_AMBIENT_MULTIPLIER)` and calibration is
complete; in particular with three RMS readings of 0.002, multiplier 3 and
floor 0.010 the learned threshold is 0.010. -/
theorem ambient_calibration :
    (∀ (cfg : SessionConfig) (co : Collaborators) (s : SessionState) (t : Int)
      (p : List Nat),
      s.ended = false → s.agentSpeaking = false → s.isProcessing = false →
      ¬ t < s.inputUnmuteAt →
      cfg.chunkBytes ≤ s.audioBuffer.length + p.length →
      0 < s.audioBuffer.length + p.length →
      s.learningAmbient = true →
      s.ambientSamples.length < cfg.ambientLearningChunks →
      ((step cfg co s (WsEvent.media t p)).ambientSamples =
          s.ambientSamples ++ [co.rmsOf (ulaw2lin (s.audioBuffer ++ p))] ∧
       (step cfg co s (WsEvent.media t p)).speechCounter = s.speechCounter ∧
       (step cfg co s (WsEvent.media t p)).silenceCounter = s.silenceCounter ∧
       (step cfg co s (WsEvent.media t p)).sttCalls = s.sttCalls ∧
       (step cfg co s (WsEvent.media t p)).audioBuffer = [] ∧
       (s.ambientSamples.length + 1 = cfg.ambientLearningChunks →
         (step cfg co s (WsEvent.media t p)).learningAmbient = false ∧
         (step cfg co s (WsEvent.media t p)).ambientThreshold =
           max cfg.minThreshold
             (rationalMean (s.ambientSamples ++
               [co.rmsOf (ulaw2lin (s.audioBuffer ++ p))]) *
              cfg.ambientMultiplier)) ∧
       (s.ambientSamples.length + 1 ≠ cfg.ambientLearningChunks →
         (step cfg co s (WsEvent.media t p)).learningAmbient = true ∧
         (step cfg co s (WsEvent.media t p)).ambientThreshold =
           s.ambientThreshold))) ∧
    ((runSession calibConfig3 rejectAllCollab (initialState calibConfig3)
        [WsEvent.media 1 [0, 0], WsEvent.media 2 [0, 0],
         WsEvent.media 3 [0, 0]]).ambientThreshold = 1/100 ∧
     (runSession calibConfig3 rejectAllCollab (initialState calibConfig3)
        [WsEvent.media 1 [0, 0], WsEvent.media 2 [0, 0],
         WsEvent.media 3 [0, 0]]).learningAmbient = false ∧
     (runSession calibConfig3 rejectAllCollab (initialState calibConfig3)
        [WsEvent.media 1 [0, 0], WsEvent.media 2 [0, 0],
         WsEvent.media 3 [0, 0]]).ambientSamples = [1/500, 1/500, 1/500] ∧
     (runSession calibConfig3 rejectAllCollab (initialState calibConfig3)
        [WsEvent.media 1 [0, 0], WsEvent.media 2 [0, 0],
         WsEvent.media 3 [0, 0]]).silenceCounter = 0 ∧
     (runSession calibConfig3 rejectAllCollab (initialState calibConfig3)
        [WsEvent.media 1 [0, 0], WsEvent.media 2 [0, 0],
         WsEvent.media 3 [0, 0]]).speechCounter = 0) := by
  constructor
  · intro cfg co s t p hend hspk hproc hmute hlen hpos hl hc
    rw [step_media_gated cfg co s t p hend hspk hmute hlen hproc]
    set s2 := { s with audioBuffer := s.audioBuffer ++ p } with hs2
    rw [gatedChunk_learning cfg co s2 t (by simp [hs2, hl]) (by simp [hs2, hc])]
    have hpcm : 0 < (ulaw2lin s2.audioBuffer).length := by
      simp [hs2, ulaw2lin]
      omega
    have hspec := learnAmbient_spec cfg co s2 (ulaw2lin s2.audioBuffer) hpcm
    refine ⟨?_, ?_, ?_, ?_, ?_, ?_, ?_⟩
    · simpa [hs2] using hspec.1
    · simp [hs2, learnAmbient_speech]
    · simp [hs2, learnAmbient_silence]
    · simp [hs2, learnAmbient_sttCalls]
    · simp
    · intro hk
      have h2 := hspec.2.1 (by simpa [hs2] using hk)
      refine ⟨by simpa [hs2] using h2.1, by simpa [hs2] using h2.2⟩
    · intro hk
      have h2 := hspec.2.2 (by simpa [hs2] using hk)
      have hs2l : s2.learningAmbient = true := hl
      constructor
      · have h3 := h2.1
        rw [hs2l] at h3
        simpa using h3
      · simpa [hs2] using h2.2
  · refine ⟨?_, ?_, ?_, ?_, ?_⟩
    · rw [calib_run]
      show max calibConfig3.minThreshold
        (rationalMean [1/500, 1/500, 1/500] * calibConfig3.ambientMultiplier) = 1/100
      have hmean : rationalMean [1/500, 1/500, 1/500] = 1/500 := by
        norm_num [rationalMean]
      rw [hmean]
      show max (1/100 : ℚ) (1/500 * 3) = 1/100
      rw [max_eq_left (by norm_num)]
    · rw [calib_run]
    · rw [calib_run]
    · rw [calib_run]
      rfl
    · rw [calib_run]
      rfl

/-- Closed instance of C1: the first calibration chunk records its RMS
reading. -/
theorem ambient_calibration_witness :
    (step calibConfig3 rejectAllCollab (initialState calibConfig3)
      (WsEvent.media 1 [0, 0])).ambientSamples = [1/500] := by
  have h := (ambient_calibration.1 calibConfig3 rejectAllCollab
    (initialState calibConfig3) 1 [0, 0] rfl rfl rfl (by decide)
    (by decide) (by decide) rfl (by decide)).1
  simpa [initialState, rejectAllCollab] using h



/-- C4. Turn trigger and single flight: on a media event in a live
non-speaking session with a clear busy flag, exactly one speech-to-text
call is made if and only if the chunk is past the cooldown, fills the
configured chunk size, is not an ambient-calibration chunk, passes the
gate, and brings the consecutive speech count to the sustained threshold;
while the agent is speaking no transcription is ever triggered; each event
adds at most one speech-to-text call and never leaves the busy flag set;
and in the two-chunk scenario with sustained threshold 2 exactly one
transcription happens and the buffer is empty afterwards regardless of the
transcript. -/
theorem turn_trigger_single_flight :
    (∀ (cfg : SessionConfig) (co : Collaborators) (s : SessionState) (t : Int)
      (p : List Nat), s.ended = false → s.agentSpeaking = false →
      s.isProcessing = false →
      (((step cfg co s (WsEvent.media t p)).sttCalls = s.sttCalls + 1) ↔
        (¬ t < s.inputUnmuteAt ∧
         cfg.chunkBytes ≤ s.audioBuffer.length + p.length ∧
         ¬ (s.learningAmbient = true ∧
            s.ambientSamples.length < cfg.ambientLearningChunks) ∧
         co.gate (ulaw2lin (s.audioBuffer ++ p)) s.ambientThreshold = true ∧
         max 1 cfg.sustainedChunks ≤ s.speechCounter + 1))) ∧
    (∀ (cfg : SessionConfig) (co : Collaborators) (s : SessionState) (t : Int)
      (p : List Nat), s.agentSpeaking = true →
      (step cfg co s (WsEvent.media t p)).sttCalls = s.sttCalls) ∧
    (∀ (cfg : SessionConfig) (co : Collaborators) (s : SessionState)
      (e : WsEvent), (step cfg co s e).sttCalls ≤ s.sttCalls + 1) ∧
    (∀ (cfg : SessionConfig) (co : Collaborators) (s : SessionState)
      (e : WsEvent), (step cfg co s e).isProcessing = s.isProcessing) ∧
    (∀ (sttFun : List Nat → Option String)
      (chatFun : String → Option String),
      (runSession noCalibConfig (demoCollab sttFun chatFun)
        (initialState noCalibConfig)
        [WsEvent.media 1 [7, 7], WsEvent.media 2 [8, 8]]).sttCalls = 1 ∧
      (runSession noCalibConfig (demoCollab sttFun chatFun)
        (initialState noCalibConfig)
        [WsEvent.media 1 [7, 7], WsEvent.media 2 [8, 8]]).audioBuffer = []) := by
  refine ⟨?_, ?_, step_sttCalls_le, step_isProcessing_eq, ?_⟩
  · intro cfg co s t p hend hspk hproc
    by_cases hmute : t < s.inputUnmuteAt
    · have hsame : (step cfg co s (WsEvent.media t p)).sttCalls = s.sttCalls := by
        simp [step, hend, stepMedia, hspk, hmute, apply_ite]
      rw [hsame]
      constructor
      · intro h
        omega
      · rintro ⟨h1, -⟩
        exact absurd hmute h1
    by_cases hbig : cfg.chunkBytes ≤ s.audioBuffer.length + p.length
    case neg =>
      have hsame : (step cfg co s (WsEvent.media t p)).sttCalls = s.sttCalls := by
        simp [step, hend, stepMedia, hspk, hmute, hbig]
      rw [hsame]
      constructor
      · intro h
        omega
      · rintro ⟨-, h2, -⟩
        exact absurd h2 hbig
    rw [step_media_gated cfg co s t p hend hspk hmute hbig hproc]
    set s2 := { s with audioBuffer := s.audioBuffer ++ p } with hs2
    by_cases hl : s.learningAmbient = true ∧
        s.ambientSamples.length < cfg.ambientLearningChunks
    · rw [gatedChunk_learning cfg co s2 t hl.1 hl.2]
      have hsame : ({ learnAmbient cfg co s2 (ulaw2lin s2.audioBuffer) with
          audioBuffer := ([] : List Nat) } : SessionState).sttCalls = s.sttCalls := by
        simp [learnAmbient_sttCalls, hs2]
      rw [hsame]
      constructor
      · intro h
        omega
      · rintro ⟨-, -, h3, -⟩
        exact absurd hl h3
    have hl2 : ¬ (s2.learningAmbient = true ∧
        s2.ambientSamples.length < cfg.ambientLearningChunks) := hl
    by_cases hg : co.gate (ulaw2lin s2.audioBuffer) s2.ambientThreshold = false
    · have hsame : (gatedChunk cfg co s2 t).sttCalls = s.sttCalls := by
        by_cases hnp : cfg.silenceChunksToPrompt ≤ s2.silenceCounter + 1 ∧
            s2.noPromptUntil ≤ t
        · by_cases hatt : cfg.maxNoResponseAttempts ≤ s2.noResponseAttempts + 1
          · simp [gatedChunk_fail_terminate cfg co s2 t hl2 hg hnp.1 hnp.2 hatt, hs2]
          · simp [gatedChunk_fail_prompt cfg co s2 t hl2 hg hnp.1 hnp.2 hatt, hs2]
        · simp [gatedChunk_fail_quiet cfg co s2 t hl2 hg hnp, hs2]
      rw [hsame]
      constructor
      · intro h
        omega
      · rintro ⟨-, -, -, h4, -⟩
        have h4b : co.gate (ulaw2lin s2.audioBuffer) s2.ambientThreshold = true := h4
        rw [h4b] at hg
        cases hg
    · have hg2 : co.gate (ulaw2lin s2.audioBuffer) s2.ambientThreshold = true := by
        revert hg
        cases co.gate (ulaw2lin s2.audioBuffer) s2.ambientThreshold <;> simp
      by_cases hsee : s2.speechCounter + 1 < max 1 cfg.sustainedChunks
      · rw [gatedChunk_pass_accumulate cfg co s2 t hl2 hg2 hsee]
        have hsame : ({ s2 with
            speechCounter := s2.speechCounter + 1
            silenceCounter := 0
            noResponseAttempts := 0 } : SessionState).sttCalls = s.sttCalls := by
          simp [hs2]
        rw [hsame]
        constructor
        · intro h
          omega
        · rintro ⟨-, -, -, -, h5⟩
          have h6 : s.speechCounter + 1 < max 1 cfg.sustainedChunks := hsee
          omega
      · rw [gatedChunk_pass_trigger cfg co s2 t hl2 hg2 hsee]
        have hsame : (processTurn cfg co
            { s2 with silenceCounter := 0, noResponseAttempts := 0 } t).sttCalls =
            s.sttCalls + 1 := by
          rw [processTurn_sttCalls]
        rw [hsame]
        have h5 : max 1 cfg.sustainedChunks ≤ s.speechCounter + 1 := by
          have h6 : ¬ s.speechCounter + 1 < max 1 cfg.sustainedChunks := hsee
          omega
        exact iff_of_true rfl ⟨hmute, hbig, hl, hg2, h5⟩
  · intro cfg co s t p hspk
    by_cases he : s.ended = true
    · simp [step, he]
    · simp [step, he, stepMedia, hspk, apply_ite, learnAmbient_sttCalls]
  · intro sttFun chatFun
    have e1 : step noCalibConfig (demoCollab sttFun chatFun)
        (initialState noCalibConfig) (WsEvent.media 1 [7, 7]) =
        { initialState noCalibConfig with
          audioBuffer := [7, 7]
          speechCounter := 1 } := by
      rw [step_media_gated _ _ _ _ _ rfl rfl (by decide) (by decide) rfl]
      rw [gatedChunk_pass_accumulate _ _ _ _ (by decide) rfl (by decide)]
      rfl
    have e2 : runSession noCalibConfig (demoCollab sttFun chatFun)
        (initialState noCalibConfig)
        [WsEvent.media 1 [7, 7], WsEvent.media 2 [8, 8]] =
        step noCalibConfig (demoCollab sttFun chatFun)
          { initialState noCalibConfig with
            audioBuffer := [7, 7]
            speechCounter := 1 } (WsEvent.media 2 [8, 8]) := by
      simp only [runSession, List.foldl_cons, List.foldl_nil]
      rw [e1]
    rw [e2]
    rw [step_media_gated _ _ _ _ _ rfl rfl (by decide) (by decide) rfl]
    rw [gatedChunk_pass_trigger _ _ _ _ (by decide) rfl (by decide)]
    constructor
    · rw [processTurn_sttCalls]
      rfl
    · exact (processTurn_spec _ _ _ _).2.1

/-- Closed instance of C4: the two-chunk scenario with concrete oracles
performs exactly one transcription and clears the buffer, and a chunk
arriving while the agent speaks leaves the transcription count unchanged. -/
theorem turn_trigger_single_flight_witness :
    (runSession noCalibConfig (demoCollab (fun _ => some "hello")
        (fun _ => some "ok")) (initialState noCalibConfig)
        [WsEvent.media 1 [7, 7], WsEvent.media 2 [8, 8]]).sttCalls = 1 ∧
    (runSession noCalibConfig (demoCollab (fun _ => some "hello")
        (fun _ => some "ok")) (initialState noCalibConfig)
        [WsEvent.media 1 [7, 7], WsEvent.media 2 [8, 8]]).audioBuffer = [] ∧
    (step noCalibConfig (demoCollab (fun _ => some "hello")
        (fun _ => some "ok"))
        { initialState noCalibConfig with agentSpeaking := true }
        (WsEvent.media 1 [7, 7])).sttCalls =
      ({ initialState noCalibConfig with
          agentSpeaking := true } : SessionState).sttCalls :=
  ⟨(turn_trigger_single_flight.2.2.2.2 _ _).1,
   (turn_trigger_single_flight.2.2.2.2 _ _).2,
   turn_trigger_single_flight.2.1 noCalibConfig _ _ 1 [7, 7] rfl⟩

theorem learnAmbient_noPromptUntil (cfg : SessionConfig) (co : Collaborators)
    (s : SessionState) (pcm : List Int) :
    (learnAmbient cfg co s pcm).noPromptUntil = s.noPromptUntil :=
  (learnAmbient_preserved cfg co s pcm).2.2.2.2.2.2.2.2.2.2.1

theorem quiet_failing_step (cfg : SessionConfig) (co : Collaborators)
    (s : SessionState) (t : Int) (p : List Nat)
    (hgate : ∀ xs q, co.gate xs q = false)
    (ht : t < s.noPromptUntil) :
    s.silenceCounter ≤ (step cfg co s (WsEvent.media t p)).silenceCounter ∧
    (step cfg co s (WsEvent.media t p)).speechCounter ≤ s.speechCounter ∧
    (step cfg co s (WsEvent.media t p)).noPromptUntil = s.noPromptUntil := by
  by_cases he : s.ended = true
  · simp [step, he]
  by_cases hspk : s.agentSpeaking = true
  · simp [step, he, stepMedia, hspk, apply_ite, learnAmbient_silence,
      learnAmbient_speech, learnAmbient_noPromptUntil]
  by_cases hmute : t < s.inputUnmuteAt
  · simp [step, he, stepMedia, hspk, hmute, apply_ite]
  by_cases hbig : cfg.chunkBytes ≤ s.audioBuffer.length + p.length ∧
      s.isProcessing = false
  · have h2 : step cfg co s (WsEvent.media t p) =
        gatedChunk cfg co { s with audioBuffer := s.audioBuffer ++ p } t := by
      simp [step, he, stepMedia, hspk, hmute, hbig]
    rw [h2]
    set s2 := { s with audioBuffer := s.audioBuffer ++ p } with hs2
    have hsil : s2.silenceCounter = s.silenceCounter := by simp [hs2]
    have hsp : s2.speechCounter = s.speechCounter := by simp [hs2]
    have hnp2 : s2.noPromptUntil = s.noPromptUntil := by simp [hs2]
    by_cases hl : s2.learningAmbient = true ∧
        s2.ambientSamples.length < cfg.ambientLearningChunks
    · simp [gatedChunk_learning cfg co s2 t hl.1 hl.2, learnAmbient_silence,
        learnAmbient_speech, learnAmbient_noPromptUntil, hsil, hsp, hnp2]
    by_cases hg : co.gate (ulaw2lin s2.audioBuffer) s2.ambientThreshold = false
    · have hnp : ¬ (cfg.silenceChunksToPrompt ≤ s2.silenceCounter + 1 ∧
          s2.noPromptUntil ≤ t) := by
        rintro ⟨-, hle⟩
        rw [hnp2] at hle
        omega
      rw [gatedChunk_fail_quiet cfg co s2 t hl hg hnp]
      refine ⟨?_, ?_, ?_⟩ <;> simp [hsil, hsp, hnp2]
    · exact absurd (hgate _ _) hg
  · simp [step, he, stepMedia, hspk, hmute, hbig]

theorem quiet_failing_run (cfg : SessionConfig) (co : Collaborators)
    (hgate : ∀ xs q, co.gate xs q = false) :
    ∀ (evs : List (Int × List Nat)) (s : SessionState),
    (∀ ev ∈ evs, ev.1 < s.noPromptUntil) →
    s.silenceCounter ≤ (runSession cfg co s
        (evs.map (fun ev => WsEvent.media ev.1 ev.2))).silenceCounter ∧
    (runSession cfg co s
        (evs.map (fun ev => WsEvent.media ev.1 ev.2))).speechCounter ≤
      s.speechCounter ∧
    (runSession cfg co s
        (evs.map (fun ev => WsEvent.media ev.1 ev.2))).noPromptUntil =
      s.noPromptUntil := by
  intro evs
  induction evs with
  | nil =>
    intro s _
    simp [runSession]
  | cons ev rest ih =>
    intro s hts
    have h1 := quiet_failing_step cfg co s ev.1 ev.2 hgate (hts ev (by simp))
    have hrun : runSession cfg co s
        ((ev :: rest).map (fun ev => WsEvent.media ev.1 ev.2)) =
        runSession cfg co (step cfg co s (WsEvent.media ev.1 ev.2))
          (rest.map (fun ev => WsEvent.media ev.1 ev.2)) := by
      simp [runSession]
    rw [hrun]
    have h2 := ih (step cfg co s (WsEvent.media ev.1 ev.2)) (by
      intro e he
      rw [h1.2.2]
      exact hts e (by simp [he]))
    exact ⟨le_trans h1.1 h2.1, le_trans h2.2.1 h1.2.1, by rw [h2.2.2, h1.2.2]⟩

/-- C3 (amended): after calibration, a gated chunk that fails the gate
resets the speech counter to zero and — provided the silence-prompt
escalation is not due (the threshold is not reached together with the
grace deadline having passed) — increments the silence counter by one; a
prompting failing chunk instead resets the silence counter to zero. A
passing chunk resets the silence counter to zero and increments the
speech counter, except that the chunk reaching the sustained threshold
runs the turn, which resets the speech counter to zero. Hence for every
media sequence that all fails the gate and arrives before the grace
deadline, the silence counter is non-decreasing and the speech counter
stays at zero. -/
theorem counter_bookkeeping :
    (∀ (cfg : SessionConfig) (co : Collaborators) (s : SessionState)
      (t : Int),
      ¬ (s.learningAmbient = true ∧
         s.ambientSamples.length < cfg.ambientLearningChunks) →
      co.gate (ulaw2lin s.audioBuffer) s.ambientThreshold = false →
      ¬ (cfg.silenceChunksToPrompt ≤ s.silenceCounter + 1 ∧
         s.noPromptUntil ≤ t) →
      (gatedChunk cfg co s t).speechCounter = 0 ∧
      (gatedChunk cfg co s t).silenceCounter = s.silenceCounter + 1) ∧
    (∀ (cfg : SessionConfig) (co : Collaborators) (s : SessionState)
      (t : Int),
      ¬ (s.learningAmbient = true ∧
         s.ambientSamples.length < cfg.ambientLearningChunks) →
      co.gate (ulaw2lin s.audioBuffer) s.ambientThreshold = false →
      cfg.silenceChunksToPrompt ≤ s.silenceCounter + 1 →
      s.noPromptUntil ≤ t →
      ¬ cfg.maxNoResponseAttempts ≤ s.noResponseAttempts + 1 →
      (gatedChunk cfg co s t).speechCounter = 0 ∧
      (gatedChunk cfg co s t).silenceCounter = 0) ∧
    (∀ (cfg : SessionConfig) (co : Collaborators) (s : SessionState)
      (t : Int),
      ¬ (s.learningAmbient = true ∧
         s.ambientSamples.length < cfg.ambientLearningChunks) →
      co.gate (ulaw2lin s.audioBuffer) s.ambientThreshold = true →
      (gatedChunk cfg co s t).silenceCounter = 0 ∧
      ((s.speechCounter + 1 < max 1 cfg.sustainedChunks ∧
        (gatedChunk cfg co s t).speechCounter = s.speechCounter + 1) ∨
       (max 1 cfg.sustainedChunks ≤ s.speechCounter + 1 ∧
        (gatedChunk cfg co s t).speechCounter = 0))) ∧
    (∀ (cfg : SessionConfig) (co : Collaborators)
      (evs : List (Int × List Nat)) (s : SessionState),
      (∀ xs q, co.gate xs q = false) →
      (∀ ev ∈ evs, ev.1 < s.noPromptUntil) →
      s.speechCounter = 0 →
      s.silenceCounter ≤ (runSession cfg co s
          (evs.map (fun ev => WsEvent.media ev.1 ev.2))).silenceCounter ∧
      (runSession cfg co s
          (evs.map (fun ev => WsEvent.media ev.1 ev.2))).speechCounter = 0) := by
  refine ⟨?_, ?_, ?_, ?_⟩
  · intro cfg co s t hnl hg hnp
    rw [gatedChunk_fail_quiet cfg co s t hnl hg hnp]
    exact ⟨rfl, rfl⟩
  · intro cfg co s t hnl hg hp1 hp2 hatt
    rw [gatedChunk_fail_prompt cfg co s t hnl hg hp1 hp2 hatt]
    exact ⟨rfl, rfl⟩
  · intro cfg co s t hnl hg
    by_cases hs : s.speechCounter + 1 < max 1 cfg.sustainedChunks
    · rw [gatedChunk_pass_accumulate cfg co s t hnl hg hs]
      exact ⟨rfl, Or.inl ⟨hs, rfl⟩⟩
    · rw [gatedChunk_pass_trigger cfg co s t hnl hg hs]
      refine ⟨?_, Or.inr ⟨by omega, ?_⟩⟩
      · rw [(processTurn_spec _ _ _ _).2.2.2.2.1]
      · exact (processTurn_spec _ _ _ _).2.2.1
  · intro cfg co evs s hgate hts hsp0
    have h := quiet_failing_run cfg co hgate evs s hts
    exact ⟨h.1, by omega⟩

/-- C3 counterexample to the original claim: with an always-failing gate,
after five failing chunks the silence counter is 5, but the sixth failing
chunk fires the louder-prompt escalation and RESETS the silence counter
to 0 instead of incrementing it — so a failing chunk does not always
increment the silence counter, and in an all-failing sequence the counter
is not non-decreasing. -/
theorem counter_bookkeeping_counterexample :
    (∀ xs q, rejectAllCollab.gate xs q = false) ∧
    (runSession noCalibConfig rejectAllCollab (initialState noCalibConfig)
      [WsEvent.media 1 [7, 7], WsEvent.media 2 [7, 7], WsEvent.media 3 [7, 7],
       WsEvent.media 4 [7, 7], WsEvent.media 5 [7, 7]]).silenceCounter = 5 ∧
    (runSession noCalibConfig rejectAllCollab (initialState noCalibConfig)
      [WsEvent.media 1 [7, 7], WsEvent.media 2 [7, 7], WsEvent.media 3 [7, 7],
       WsEvent.media 4 [7, 7], WsEvent.media 5 [7, 7],
       WsEvent.media 6 [7, 7]]).silenceCounter = 0 :=
  ⟨fun _ _ => rfl, by decide, by decide⟩

/-- Closed instance of C3: one failing chunk away from the prompt
threshold, the silence counter increments from 0 to 1 and the speech
counter is reset to zero. -/
theorem counter_bookkeeping_witness :
    (gatedChunk noCalibConfig rejectAllCollab
      { initialState noCalibConfig with audioBuffer := [7, 7] }
      1).speechCounter = 0 ∧
    (gatedChunk noCalibConfig rejectAllCollab
      { initialState noCalibConfig with audioBuffer := [7, 7] }
      1).silenceCounter = 1 :=
  counter_bookkeeping.1 noCalibConfig rejectAllCollab
    { initialState noCalibConfig with audioBuffer := [7, 7] } 1
    (by decide) rfl (by decide)

/-- Legal configuration prompting after two silent chunks, with no
calibration phase, a 2-byte chunk size and no post-prompt cooldown or
grace period. -/
def promptTwoConfig : SessionConfig :=
  { defaultSessionConfig with
    ambientLearningChunks := 0
    chunkBytes := 2
    silenceChunksToPrompt := 2
    cooldownMs := 0
    promptGraceMs := 0 }

/-- Six consecutive failing chunks: two prompting cycles complete and the
third escalation terminates the session. -/
def promptTrace : List WsEvent :=
  [WsEvent.media 100 [7, 7], WsEvent.media 200 [7, 7],
   WsEvent.media 300 [7, 7], WsEvent.media 400 [7, 7],
   WsEvent.media 500 [7, 7], WsEvent.media 600 [7, 7]]

/-- C5: when the failing chunk's escalation reaches the maximum number of
no-response attempts, the farewell is synthesized and sent and the
session is ended; an ended session absorbs every further event (one-way,
non-retryable). Concretely, with prompt threshold 2 and maximum 3, six
consecutive failing chunks complete exactly two prompting cycles and the
third escalation sends the farewell and ends the session, after which no
further audio is accepted. -/
theorem termination_after_prompting :
    (∀ (cfg : SessionConfig) (co : Collaborators) (s : SessionState)
      (t : Int),
      ¬ (s.learningAmbient = true ∧
         s.ambientSamples.length < cfg.ambientLearningChunks) →
      co.gate (ulaw2lin s.audioBuffer) s.ambientThreshold = false →
      cfg.silenceChunksToPrompt ≤ s.silenceCounter + 1 →
      s.noPromptUntil ≤ t →
      cfg.maxNoResponseAttempts ≤ s.noResponseAttempts + 1 →
      (gatedChunk cfg co s t).ended = true ∧
      (gatedChunk cfg co s t).farewellSent = true ∧
      (gatedChunk cfg co s t).noResponseAttempts =
        s.noResponseAttempts + 1 ∧
      (gatedChunk cfg co s t).sentFrames =
        s.sentFrames ++ send_audio_to_twilio co Utterance.farewell) ∧
    (∀ (cfg : SessionConfig) (co : Collaborators) (s : SessionState)
      (e : WsEvent), s.ended = true → step cfg co s e = s) ∧
    ((runSession promptTwoConfig rejectAllCollab
        (initialState promptTwoConfig) promptTrace).ended = true ∧
     (runSession promptTwoConfig rejectAllCollab
        (initialState promptTwoConfig) promptTrace).farewellSent = true ∧
     (runSession promptTwoConfig rejectAllCollab
        (initialState promptTwoConfig) promptTrace).promptsSent = 2 ∧
     (runSession promptTwoConfig rejectAllCollab
        (initialState promptTwoConfig) promptTrace).noResponseAttempts = 3 ∧
     (runSession promptTwoConfig rejectAllCollab
        (initialState promptTwoConfig) promptTrace).sttCalls = 0 ∧
     (∀ e : WsEvent, step promptTwoConfig rejectAllCollab
        (runSession promptTwoConfig rejectAllCollab
          (initialState promptTwoConfig) promptTrace) e =
        runSession promptTwoConfig rejectAllCollab
          (initialState promptTwoConfig) promptTrace)) := by
  refine ⟨?_, ?_, ?_, ?_, ?_, ?_, ?_, ?_⟩
  · intro cfg co s t hnl hg hp1 hp2 hatt
    rw [gatedChunk_fail_terminate cfg co s t hnl hg hp1 hp2 hatt]
    exact ⟨rfl, rfl, rfl, rfl⟩
  · intro cfg co s e he
    exact step_of_ended cfg co s e he
  · decide
  · decide
  · decide
  · decide
  · decide
  · intro e
    exact step_of_ended _ _ _ e (by decide)

/-- Closed instance of C5: a third escalation on a concrete state ends the
session, marks the farewell sent and records the third attempt. -/
theorem termination_after_prompting_witness :
    (gatedChunk promptTwoConfig rejectAllCollab
      { initialState promptTwoConfig with
          audioBuffer := [7, 7]
          silenceCounter := 1
          noResponseAttempts := 2 } 100).ended = true ∧
    (gatedChunk promptTwoConfig rejectAllCollab
      { initialState promptTwoConfig with
          audioBuffer := [7, 7]
          silenceCounter := 1
          noResponseAttempts := 2 } 100).farewellSent = true ∧
    (gatedChunk promptTwoConfig rejectAllCollab
      { initialState promptTwoConfig with
          audioBuffer := [7, 7]
          silenceCounter := 1
          noResponseAttempts := 2 } 100).noResponseAttempts = 2 + 1 ∧
    (gatedChunk promptTwoConfig rejectAllCollab
      { initialState promptTwoConfig with
          audioBuffer := [7, 7]
          silenceCounter := 1
          noResponseAttempts := 2 } 100).sentFrames =
      ({ initialState promptTwoConfig with
          audioBuffer := [7, 7]
          silenceCounter := 1
          noResponseAttempts := 2 } : SessionState).sentFrames ++
        send_audio_to_twilio rejectAllCollab Utterance.farewell :=
  termination_after_prompting.1 promptTwoConfig rejectAllCollab
    { initialState promptTwoConfig with
        audioBuffer := [7, 7]
        silenceCounter := 1
        noResponseAttempts := 2 } 100
    (by decide) rfl (by decide) (by decide) (by decide)

/-- Legal configuration with no calibration phase and a 4-byte chunk
size. -/
def cooldownDemoConfig : SessionConfig :=
  { defaultSessionConfig with ambientLearningChunks := 0, chunkBytes := 4 }

/-- C7 (amended): the reply path and the prompt path both arm the cooldown
by setting the unmute deadline to now plus the configured cooldown; a
media event arriving before the deadline never reaches the gate (no
speech/silence bookkeeping, no transcription, no processed turn at that
event), and its bytes are discarded exactly when the accumulated buffer
has reached the chunk size — a smaller accumulation is kept in the
buffer. -/
theorem cooldown_discard :
    (∀ (cfg : SessionConfig) (co : Collaborators) (s : SessionState)
      (t : Int) (txt ai : String),
      co.stt s.audioBuffer = some txt → txt ≠ "" →
      co.chat txt = some ai → ai ≠ "" →
      (processTurn cfg co s t).inputUnmuteAt = t + (cfg.cooldownMs : Int)) ∧
    (∀ (cfg : SessionConfig) (co : Collaborators) (s : SessionState)
      (t : Int),
      ¬ (s.learningAmbient = true ∧
         s.ambientSamples.length < cfg.ambientLearningChunks) →
      co.gate (ulaw2lin s.audioBuffer) s.ambientThreshold = false →
      cfg.silenceChunksToPrompt ≤ s.silenceCounter + 1 →
      s.noPromptUntil ≤ t →
      ¬ cfg.maxNoResponseAttempts ≤ s.noResponseAttempts + 1 →
      (gatedChunk cfg co s t).inputUnmuteAt = t + (cfg.cooldownMs : Int)) ∧
    (∀ (cfg : SessionConfig) (co : Collaborators) (s : SessionState)
      (t : Int) (p : List Nat),
      s.ended = false → s.agentSpeaking = false → t < s.inputUnmuteAt →
      (step cfg co s (WsEvent.media t p)).audioBuffer =
        (if cfg.chunkBytes ≤ (s.audioBuffer ++ p).length then []
         else s.audioBuffer ++ p) ∧
      (step cfg co s (WsEvent.media t p)).processedBuffers =
        s.processedBuffers ∧
      (step cfg co s (WsEvent.media t p)).sttCalls = s.sttCalls ∧
      (step cfg co s (WsEvent.media t p)).silenceCounter =
        s.silenceCounter ∧
      (step cfg co s (WsEvent.media t p)).speechCounter =
        s.speechCounter) := by
  refine ⟨?_, ?_, ?_⟩
  · intro cfg co s t txt ai hstt htxt hchat hai
    simp [processTurn, hstt, htxt, hchat, hai]
  · intro cfg co s t hnl hg hp1 hp2 hatt
    rw [gatedChunk_fail_prompt cfg co s t hnl hg hp1 hp2 hatt]
  · intro cfg co s t p hend hspk hmute
    refine ⟨?_, ?_, ?_, ?_, ?_⟩
    · by_cases hlen : cfg.chunkBytes ≤ s.audioBuffer.length + p.length <;>
        simp [step, hend, stepMedia, hspk, hmute, hlen]
    · simp [step, hend, stepMedia, hspk, hmute, apply_ite]
    · simp [step, hend, stepMedia, hspk, hmute, apply_ite]
    · simp [step, hend, stepMedia, hspk, hmute, apply_ite]
    · simp [step, hend, stepMedia, hspk, hmute, apply_ite]

/-- C7 counterexample to the original claim: after the greeting the
cooldown runs until 1000 ms; the two bytes arriving at 500 ms are NOT
discarded (the accumulated buffer is below the 4-byte chunk size, so they
stay in the buffer), and they later contribute to the single processed
turn, whose recorded buffer begins with them. -/
theorem cooldown_discard_counterexample :
    (runSession cooldownDemoConfig acceptAllCollab
      (initialState cooldownDemoConfig)
      [WsEvent.start 0, WsEvent.media 500 [7, 7]]).inputUnmuteAt = 1000 ∧
    (500 : Int) < 1000 ∧
    (runSession cooldownDemoConfig acceptAllCollab
      (initialState cooldownDemoConfig)
      [WsEvent.start 0, WsEvent.media 500 [7, 7]]).audioBuffer = [7, 7] ∧
    (runSession cooldownDemoConfig acceptAllCollab
      (initialState cooldownDemoConfig)
      [WsEvent.start 0, WsEvent.media 500 [7, 7],
       WsEvent.media 2000 [9, 9], WsEvent.media 3000 [5, 5]]).processedBuffers =
      [[7, 7, 9, 9, 5, 5]] :=
  ⟨by decide, by decide, by decide, by decide⟩

/-- Closed instance of C7: a media event during the cooldown with the
buffer below the chunk size keeps its bytes buffered and performs no
bookkeeping or processing. -/
theorem cooldown_discard_witness :
    (step cooldownDemoConfig acceptAllCollab
      { initialState cooldownDemoConfig with inputUnmuteAt := 1000 }
      (WsEvent.media 500 [7, 7])).audioBuffer =
      (if cooldownDemoConfig.chunkBytes ≤
          (({ initialState cooldownDemoConfig with
              inputUnmuteAt := 1000 } : SessionState).audioBuffer ++
            [7, 7]).length then []
       else ({ initialState cooldownDemoConfig with
              inputUnmuteAt := 1000 } : SessionState).audioBuffer ++ [7, 7]) ∧
    (step cooldownDemoConfig acceptAllCollab
      { initialState cooldownDemoConfig with inputUnmuteAt := 1000 }
      (WsEvent.media 500 [7, 7])).processedBuffers = [] ∧
    (step cooldownDemoConfig acceptAllCollab
      { initialState cooldownDemoConfig with inputUnmuteAt := 1000 }
      (WsEvent.media 500 [7, 7])).sttCalls = 0 ∧
    (step cooldownDemoConfig acceptAllCollab
      { initialState cooldownDemoConfig with inputUnmuteAt := 1000 }
      (WsEvent.media 500 [7, 7])).silenceCounter = 0 ∧
    (step cooldownDemoConfig acceptAllCollab
      { initialState cooldownDemoConfig with inputUnmuteAt := 1000 }
      (WsEvent.media 500 [7, 7])).speechCounter = 0 :=
  cooldown_discard.2.2 cooldownDemoConfig acceptAllCollab
    { initialState cooldownDemoConfig with inputUnmuteAt := 1000 }
    500 [7, 7] rfl rfl (by decide)

theorem frameChunks_length (bytes : List Nat) :
    (frameChunks bytes).length = (bytes.length + 639) / 640 := by
  simp [frameChunks]

theorem frameChunks_get (bytes : List Nat) (i : Nat)
    (h : i < (frameChunks bytes).length) :
    (frameChunks bytes).get ⟨i, h⟩ = (bytes.drop (640 * i)).take 640 := by
  simp [frameChunks]

theorem transmitFrames_take (transport : List Nat → Bool)
    (frames : List (List Nat)) :
    ∃ k, k ≤ frames.length ∧
      transmitFrames transport frames = frames.take k ∧
      (∀ f ∈ frames.take k, transport f = true) ∧
      (∀ h : k < frames.length, transport (frames.get ⟨k, h⟩) = false) := by
  induction frames with
  | nil =>
    refine ⟨0, by simp, by simp [transmitFrames], by simp, ?_⟩
    intro h
    simp at h
  | cons f rest ih =>
    by_cases ht : transport f = true
    · obtain ⟨k, hk, he, hall, hfail⟩ := ih
      refine ⟨k + 1, by simpa using hk, ?_, ?_, ?_⟩
      · simp [transmitFrames, ht, he]
      · intro g hg
        rw [List.take_succ_cons] at hg
        rcases List.mem_cons.1 hg with hg | hg
        · rw [hg]; exact ht
        · exact hall g hg
      · intro h
        have h2 : k < rest.length := by simpa using h
        exact hfail h2
    · refine ⟨0, by simp, ?_, by simp, ?_⟩
      · simp [transmitFrames, ht]
      · intro h
        simpa using Bool.not_eq_true _ |>.mp ht

theorem step_transport_fields (cfg : SessionConfig) (co : Collaborators)
    (τ : List Nat → Bool) (s : SessionState) (e : WsEvent) :
    (step cfg { co with transport := τ } s e).ended =
      (step cfg co s e).ended ∧
    (step cfg { co with transport := τ } s e).sttCalls =
      (step cfg co s e).sttCalls := by
  cases e with
  | start t =>
    by_cases he : s.ended = true <;> simp [step, he, stepStart, apply_ite]
  | stop =>
    by_cases he : s.ended = true <;> simp [step, he]
  | media t p =>
    by_cases he : s.ended = true
    · simp [step, he]
    by_cases hspk : s.agentSpeaking = true
    · simp [step, he, stepMedia, hspk, apply_ite, learnAmbient_ended,
        learnAmbient_sttCalls]
    by_cases hmute : t < s.inputUnmuteAt
    · simp [step, he, stepMedia, hspk, hmute, apply_ite]
    by_cases hbig : cfg.chunkBytes ≤ s.audioBuffer.length + p.length ∧
        s.isProcessing = false
    · have h2 : step cfg { co with transport := τ } s (WsEvent.media t p) =
          gatedChunk cfg { co with transport := τ }
            { s with audioBuffer := s.audioBuffer ++ p } t := by
        simp [step, he, stepMedia, hspk, hmute, hbig]
      have h3 : step cfg co s (WsEvent.media t p) =
          gatedChunk cfg co { s with audioBuffer := s.audioBuffer ++ p } t := by
        simp [step, he, stepMedia, hspk, hmute, hbig]
      rw [h2, h3]
      set s2 := { s with audioBuffer := s.audioBuffer ++ p } with hs2
      by_cases hl : s2.learningAmbient = true ∧
          s2.ambientSamples.length < cfg.ambientLearningChunks
      · simp [gatedChunk_learning cfg { co with transport := τ } s2 t hl.1 hl.2,
          gatedChunk_learning cfg co s2 t hl.1 hl.2,
          learnAmbient_ended, learnAmbient_sttCalls]
      by_cases hg : co.gate (ulaw2lin s2.audioBuffer) s2.ambientThreshold = false
      · have hg2 : Collaborators.gate { co with transport := τ }
            (ulaw2lin s2.audioBuffer) s2.ambientThreshold = false := hg
        by_cases hnp : cfg.silenceChunksToPrompt ≤ s2.silenceCounter + 1 ∧
            s2.noPromptUntil ≤ t
        · by_cases hatt : cfg.maxNoResponseAttempts ≤ s2.noResponseAttempts + 1
          · simp [gatedChunk_fail_terminate cfg { co with transport := τ }
                s2 t hl hg2 hnp.1 hnp.2 hatt,
              gatedChunk_fail_terminate cfg co s2 t hl hg hnp.1 hnp.2 hatt]
          · simp [gatedChunk_fail_prompt cfg { co with transport := τ }
                s2 t hl hg2 hnp.1 hnp.2 hatt,
              gatedChunk_fail_prompt cfg co s2 t hl hg hnp.1 hnp.2 hatt]
        · simp [gatedChunk_fail_quiet cfg { co with transport := τ }
              s2 t hl hg2 hnp,
            gatedChunk_fail_quiet cfg co s2 t hl hg hnp]
      · have hgt : co.gate (ulaw2lin s2.audioBuffer) s2.ambientThreshold = true := by
          revert hg
          cases co.gate (ulaw2lin s2.audioBuffer) s2.ambientThreshold <;> simp
        have hgt2 : Collaborators.gate { co with transport := τ }
            (ulaw2lin s2.audioBuffer) s2.ambientThreshold = true := hgt
        by_cases hs : s2.speechCounter + 1 < max 1 cfg.sustainedChunks
        · simp [gatedChunk_pass_accumulate cfg { co with transport := τ }
              s2 t hl hgt2 hs,
            gatedChunk_pass_accumulate cfg co s2 t hl hgt hs]
        · simp [gatedChunk_pass_trigger cfg { co with transport := τ }
              s2 t hl hgt2 hs,
            gatedChunk_pass_trigger cfg co s2 t hl hgt hs,
            processTurn_ended, processTurn_sttCalls]
    · simp [step, he, stepMedia, hspk, hmute, hbig]

/-- C9 (amended): outbound wire audio is cut into fixed 640-byte frames
(every frame except possibly the last is full and none exceeds the frame
size); transmission proceeds in order and the first failing frame aborts
the remainder of the send. The failure, however, is caught and only
logged inside the send routine, so it is invisible to the session state
machine: the session's ended flag and transcription count do not depend
on the transport at all, and a transport failure is fatal neither to the
current session nor to the process. -/
theorem dispatcher_framing :
    (∀ (bytes : List Nat) (i : Nat) (h : i < (frameChunks bytes).length),
      i + 1 < (frameChunks bytes).length →
      ((frameChunks bytes).get ⟨i, h⟩).length = 640) ∧
    (∀ (bytes : List Nat), ∀ f ∈ frameChunks bytes, f.length ≤ 640) ∧
    (∀ (transport : List Nat → Bool) (frames : List (List Nat)),
      ∃ k, k ≤ frames.length ∧
        transmitFrames transport frames = frames.take k ∧
        (∀ f ∈ frames.take k, transport f = true) ∧
        (∀ h : k < frames.length,
          transport (frames.get ⟨k, h⟩) = false)) ∧
    (∀ (co : Collaborators) (u : Utterance),
      send_audio_to_twilio co u =
        transmitFrames co.transport (frameChunks (co.tts u))) ∧
    (∀ (cfg : SessionConfig) (co : Collaborators) (τ : List Nat → Bool)
      (s : SessionState) (e : WsEvent),
      (step cfg { co with transport := τ } s e).ended =
        (step cfg co s e).ended ∧
      (step cfg { co with transport := τ } s e).sttCalls =
        (step cfg co s e).sttCalls) := by
  refine ⟨?_, ?_, ?_, ?_, ?_⟩
  · intro bytes i h hlast
    rw [frameChunks_get]
    rw [frameChunks_length] at hlast
    simp only [List.length_take, List.length_drop]
    omega
  · intro bytes f hf
    simp only [frameChunks, List.mem_map, List.mem_range] at hf
    obtain ⟨i, -, rfl⟩ := hf
    simp only [List.length_take, List.length_drop]
    omega
  · intro transport frames
    exact transmitFrames_take transport frames
  · intro co u
    rfl
  · intro cfg co τ s e
    exact step_transport_fields cfg co τ s e

/-- Collaborators whose transport always fails, with an always-passing
gate, nonempty transcripts and replies, and a 650-byte synthesized
reply. -/
def failingTransportCollab : Collaborators :=
  { rmsOf := fun _ => 1/500
    gate := fun _ _ => true
    stt := fun _ => some "hello"
    chat := fun _ => some "reply"
    tts := fun _ => List.replicate 650 255
    transport := fun _ => false }

set_option maxRecDepth 8000 in
/-- C9 counterexample to the original claim: with a transport that fails
on every frame, the reply of the first processed turn is never
transmitted (no frame is sent although the frame list is nonempty), yet
the session is NOT terminated: it goes on to process a second turn, and
the ended flag stays false — a transport failure is not reported to the
session as a fatal error. -/
theorem dispatcher_failure_counterexample :
    (∀ f, failingTransportCollab.transport f = false) ∧
    frameChunks (failingTransportCollab.tts (Utterance.reply "reply")) ≠ [] ∧
    (runSession noCalibConfig failingTransportCollab
      (initialState noCalibConfig)
      [WsEvent.media 1 [7, 7], WsEvent.media 2 [7, 7],
       WsEvent.media 2000 [7, 7], WsEvent.media 3000 [7, 7]]).sentFrames =
      [] ∧
    (runSession noCalibConfig failingTransportCollab
      (initialState noCalibConfig)
      [WsEvent.media 1 [7, 7], WsEvent.media 2 [7, 7],
       WsEvent.media 2000 [7, 7], WsEvent.media 3000 [7, 7]]).sttCalls = 2 ∧
    (runSession noCalibConfig failingTransportCollab
      (initialState noCalibConfig)
      [WsEvent.media 1 [7, 7], WsEvent.media 2 [7, 7],
       WsEvent.media 2000 [7, 7], WsEvent.media 3000 [7, 7]]).ended =
      false :=
  ⟨fun _ => rfl, by decide, by decide, by decide, by decide⟩

set_option maxRecDepth 8000 in
/-- Closed instance of C9: in a two-frame cut of 641 bytes, the first
(non-last) frame is exactly 640 bytes long. -/
theorem dispatcher_framing_witness :
    ((frameChunks (List.replicate 641 0)).get ⟨0, by decide⟩).length = 640 :=
  dispatcher_framing.1 (List.replicate 641 0) 0 (by decide) (by decide)

set_option maxRecDepth 8000 in
/-- Closed instance of C10: a four-frame chunk that the WebRTC detector
accepts passes the combined gate. -/
theorem gate_composition_disjunction_witness :
    computeGatePass defaultGateConfig defaultWebrtcConfig true
      (fun _ => true) (List.replicate 640 0) (1 / 100) :=
  (gate_composition_disjunction defaultGateConfig defaultWebrtcConfig
    (fun _ => true) (List.replicate 640 0) (1 / 100)).2.1 (by decide)

end Seniorly
